import Mathlib

set_option maxHeartbeats 1000000

/-!
Shallow embedding of the BugPlatformEnv 2D platformer environment
(src/bug_platform_env.py, called preset v0 here, and
src/bug_platform_env_v1.py, preset v1).

The Python code manipulates numpy float32 values; the embedding models the
arithmetic exactly over the rationals.  Every constant and branch follows the
source line by line.  The `super().reset(seed=seed)` call seeds a random
generator (`self.np_random`) that is never consulted anywhere in either file;
it is modelled by an `rngSeed` field that `step` carries along unchanged and
never reads.
-/

/-- Python's `abs` on exact rationals. -/
def rabs (q : ℚ) : ℚ := if q < 0 then -q else q

/-- Bundle of the four physics variables `(x_new, y_new, vx, vy)` that the
collision stages of `step` thread through. -/
@[ext]
structure PhysState where
  x : ℚ
  y : ℚ
  vx : ℚ
  vy : ℚ
deriving DecidableEq

/-- Full mutable state of a preset-v0 environment instance: the `self.state`
vector plus the jump bookkeeping, step counter and (unused) rng seed. -/
@[ext]
structure StateV0 where
  x : ℚ
  y : ℚ
  vx : ℚ
  vy : ℚ
  cooldown : ℕ
  prevJump : ℤ
  isJumping : Bool
  yBeforeJump : ℚ
  steps : ℕ
  rngSeed : Option ℕ
deriving DecidableEq

/-- Full mutable state of a preset-v1 environment instance; v1 additionally
keeps the `recent_x` deque (maxlen 100) for the stagnation penalty. -/
@[ext]
structure StateV1 where
  x : ℚ
  y : ℚ
  vx : ℚ
  vy : ℚ
  cooldown : ℕ
  prevJump : ℤ
  isJumping : Bool
  yBeforeJump : ℚ
  steps : ℕ
  recentX : List ℚ
  rngSeed : Option ℕ
deriving DecidableEq

/-- The 5-tuple returned by `step`, minus the always-empty info dict. -/
@[ext]
structure StepResult (σ : Type) where
  state : σ
  reward : ℚ
  terminated : Bool
  truncated : Bool
deriving DecidableEq

/-- `if self.jump_cooldown > 0: self.jump_cooldown -= 1` at the top of `step`. -/
def cooldownTick (c : ℕ) : ℕ := if 0 < c then c - 1 else c

/-- Horizontal control: movement 1 is left (-move_speed), 2 is right
(+move_speed), anything else gives vx = 0 (move_speed = 4 in both presets). -/
def vxCmd (movement : ℤ) : ℚ :=
  if movement = 1 then -4 else if movement = 2 then 4 else 0

/-- Top surface of a platform `(x_left, x_right, y_top)`:
`py + self.platform_thickness` with thickness 0.2 in both presets. -/
def platTop (p : ℚ × ℚ × ℚ) : ℚ := p.2.2 + 1/5

/-- One iteration of the platform-collision loop body: the previous `y` is
at/above the top, the new `y` at/below it, and the new horizontal extent
(half-width 0.3) overlaps `(px1, px2)`. -/
def platHit (yPrev yNew xNew : ℚ) (p : ℚ × ℚ × ℚ) : Bool :=
  decide (platTop p ≤ yPrev) && decide (yNew ≤ platTop p) &&
    (decide (p.1 < xNew + 3/10) && decide (xNew - 3/10 < p.2.1))

/-- The platform loop: scan in list order, return the top of the first
platform hit (the loop `break`s there), `none` if no platform matches. -/
def firstHit : List (ℚ × ℚ × ℚ) → ℚ → ℚ → ℚ → Option ℚ
  | [], _, _, _ => none
  | p :: rest, yPrev, yNew, xNew =>
    if platHit yPrev yNew xNew p then some (platTop p)
    else firstHit rest yPrev yNew xNew

/-- Ground collision: `if y_new < 0.0: y_new = 0.0; vy = 0.0`. -/
def groundClamp (p : PhysState) : PhysState :=
  if p.y < 0 then { p with y := 0, vy := 0 } else p

/-- Platform collision stage: only runs while falling (`vy < 0.0`); the first
platform matched in list order receives the snap and the loop stops. -/
def platformStage (plats : List (ℚ × ℚ × ℚ)) (yPrev : ℚ) (p : PhysState) :
    PhysState :=
  if p.vy < 0 then
    match firstHit plats yPrev p.y p.x with
    | some t => { p with y := t, vy := 0 }
    | none => p
  else p

/-- The four preset-v0 platforms `(x_left, x_right, y_top)`. -/
def platformsV0 : List (ℚ × ℚ × ℚ) :=
  [(4, 17/2, 3/2), (6, 9, 3), (5, 13/2, 9/2), (7, 10, 6)]

/-- The five preset-v1 platforms `(x_left, x_right, y_top)`. -/
def platformsV1 : List (ℚ × ℚ × ℚ) :=
  [(9, 25/2, 3/2), (6, 19/2, 3), (17/2, 12, 9/2), (11/2, 21/2, 6),
   (19/2, 27/2, 15/2)]

/-- `_on_ground` for preset v0 (eps = 0.001): ground, any platform top with
horizontal overlap, the wall top (7), or the bug gap's lower lip (1). -/
def onGroundV0 (x y : ℚ) : Bool :=
  if rabs y < 1/1000 then true
  else if platformsV0.any (fun p =>
      decide (rabs (y - platTop p) < 1/1000) &&
        (decide (p.1 < x + 3/10) && decide (x - 3/10 < p.2.1))) then true
  else if rabs (y - 7) < 1/1000 then true
  else if rabs (y - 1) < 1/1000 then true
  else false

/-- `_on_ground` for preset v1: ground, platform tops, the wall top (8.5), or
the bug gap's lower lip (5.5). -/
def onGroundV1 (x y : ℚ) : Bool :=
  if rabs y < 1/1000 then true
  else if platformsV1.any (fun p =>
      decide (rabs (y - platTop p) < 1/1000) &&
        (decide (p.1 < x + 3/10) && decide (x - 3/10 < p.2.1))) then true
  else if rabs (y - 17/2) < 1/1000 then true
  else if rabs (y - 11/2) < 1/1000 then true
  else false

/-- `in_bug_gap` for v0: the previous `y` lies in `[1, 3]`. -/
def inGapV0 (y : ℚ) : Bool := decide (1 ≤ y) && decide (y ≤ 3)

/-- `in_bug_gap` for v1: the previous `y` lies in `[5.5, 5.8]`
(gap_max = 5.5 + 3 * hitbox_height with hitbox_height = 0.1). -/
def inGapV1 (y : ℚ) : Bool := decide (11/2 ≤ y) && decide (y ≤ 29/5)

/-- `inside_wall_horizontal and inside_wall_vertical` for v0: the proposed
player box (half-width 0.3, full height 0.6) overlaps the wall slab
`[9.7, 10.3] x [0, 7]`. -/
def wallOverlapV0 (p : PhysState) : Bool :=
  (decide (p.x + 3/10 > 97/10) && decide (p.x - 3/10 < 103/10)) &&
    (decide (p.y < 7) && decide (p.y + 3/5 > 0))

/-- `inside_wall_horizontal and inside_wall_vertical` for v1: half-width 0.3
and the thin foot hitbox of height 0.1 against the wall slab
`[13.7, 14.3] x [0, 8.5]`. -/
def wallOverlapV1 (p : PhysState) : Bool :=
  (decide (p.x + 3/10 > 137/10) && decide (p.x - 3/10 < 143/10)) &&
    (decide (p.y < 17/2) && decide (p.y + 1/10 > 0))

/-- Wall-collision stage for v0, lines 195-213 of the source: gap branch
first (vertical clamps only), then wall-top-as-ledge, then the lateral block
to the nearer face. `x`, `y` are the pre-step position. -/
def wallResolveV0 (x y : ℚ) (p : PhysState) : PhysState :=
  if wallOverlapV0 p then
    if inGapV0 y then
      if p.y ≤ 1 then { p with y := 1, vy := 0 }
      else if p.y + 3/5 ≥ 3 then { p with y := 3 - 3/5 }
      else p
    else if ¬ (y < 7) then
      if p.y ≤ 7 then { p with y := 7, vy := 0 } else p
    else if x < 10 then { p with x := 97/10 - 3/10, vx := 0 }
    else { p with x := 103/10 + 3/10, vx := 0 }
  else p

/-- Wall-collision stage for v1, lines 212-230 of the source (wall center 14,
height 8.5, gap `[5.5, 5.8]`, hitbox height 0.1). -/
def wallResolveV1 (x y : ℚ) (p : PhysState) : PhysState :=
  if wallOverlapV1 p then
    if inGapV1 y then
      if p.y ≤ 11/2 then { p with y := 11/2, vy := 0 }
      else if p.y + 1/10 ≥ 29/5 then { p with y := 29/5 - 1/10 }
      else p
    else if ¬ (y < 17/2) then
      if p.y ≤ 17/2 then { p with y := 17/2, vy := 0 } else p
    else if x < 14 then { p with x := 137/10 - 3/10, vx := 0 }
    else { p with x := 143/10 + 3/10, vx := 0 }
  else p

/-- `_reached_flag`: within 0.5 of `(flag_x, flag_y) = (20, 0)` on both axes
(identical in the two presets). -/
def reachedFlag (x y : ℚ) : Bool :=
  decide (rabs (x - 20) < 1/2) && decide (rabs (y - 0) < 1/2)

/-- The jump trigger condition of v0 in source order: rising edge
(`jump == 1 and prev_jump == 0`), `vy < 0.001`, the already-decremented
cooldown is 0, and `_on_ground` at the pre-step position. -/
def doJumpV0 (s : StateV0) (jump : ℤ) : Bool :=
  decide (jump = 1) && decide (s.prevJump = 0) && decide (s.vy < 1/1000) &&
    decide (cooldownTick s.cooldown = 0) && onGroundV0 s.x s.y

/-- The jump trigger condition of v1 (cooldown_max differs, the test is the
same shape). -/
def doJumpV1 (s : StateV1) (jump : ℤ) : Bool :=
  decide (jump = 1) && decide (s.prevJump = 0) && decide (s.vy < 1/1000) &&
    decide (cooldownTick s.cooldown = 0) && onGroundV1 s.x s.y

/-- Landing-outcome gate of v0: `self.is_jumping and
self._on_ground(x_new, y_new) and abs(vy) < eps`. -/
def landingHitV0 (isJ : Bool) (p : PhysState) : Bool :=
  isJ && onGroundV0 p.x p.y && decide (rabs p.vy < 1/1000)

/-- Landing-outcome gate of v1. -/
def landingHitV1 (isJ : Bool) (p : PhysState) : Bool :=
  isJ && onGroundV1 p.x p.y && decide (rabs p.vy < 1/1000)

/-- Landing adjustment on `height_gained`: below -0.2 nothing, in
`[-0.2, 0.2)` the preset's penalty (1.0 in v0, 0.4 in v1), at/above 0.2 a
+0.2 bonus. -/
def landingAdj (penalty h : ℚ) : ℚ :=
  if h < -(1/5) then 0 else if h < 1/5 then -penalty else 1/5

/-- The reward accumulated by one v0 step, term by term in source order:
jump-held penalty (-0.02), progress toward the flag, ascent bonus (/5),
fixed step penalty, idle penalty gated on `not self.is_jumping`, landing
adjustment, terminal bonus `10 + 0.1 * (max_steps - steps)`. -/
def rewardV0 (jump : ℤ) (x y : ℚ) (p : PhysState) (isJ : Bool) (yB : ℚ)
    (steps1 : ℕ) : ℚ :=
  (if jump = 1 then -(1/50) else 0)
  + (rabs (20 - x) - rabs (20 - p.x)) / 5
  + (if 0 < p.y - y then (p.y - y) / 5 else 0)
  - 1/100
  + (if decide (rabs p.vx < 1/1000) && !isJ then -(1/20) else 0)
  + (if landingHitV0 isJ p then landingAdj 1 (p.y - yB) else 0)
  + (if reachedFlag p.x p.y then 10 + (1/10) * (1000 - (steps1 : ℚ)) else 0)

/-- Python's `max` over a nonempty sequence (`max(self.recent_x)`). -/
def listMax : List ℚ → ℚ
  | [] => 0
  | a :: l => l.foldl max a

/-- Python's `min` over a nonempty sequence (`min(self.recent_x)`). -/
def listMin : List ℚ → ℚ
  | [] => 0
  | a :: l => l.foldl min a

/-- `self.recent_x.append(x_new)` on a deque with maxlen 100: a full deque
drops its oldest element. -/
def pushRecent (l : List ℚ) (x : ℚ) : List ℚ :=
  if l.length = 100 then l.drop 1 ++ [x] else l ++ [x]

/-- v1 stagnation penalty: once the window holds 100 entries, spread below
the threshold 2 costs a flat 0.03. -/
def stagnationPenalty (l : List ℚ) : ℚ :=
  if decide (l.length = 100) && decide (listMax l - listMin l < 2) then
    -(3/100)
  else 0

/-- The reward accumulated by one v1 step: jump-held penalty -0.01, progress,
ascent bonus (/10), fixed step penalty, unconditional idle penalty, landing
adjustment (penalty 0.4), stagnation penalty on the updated window, terminal
bonus. `recent1` is the window after this step's append. -/
def rewardV1 (jump : ℤ) (x y : ℚ) (p : PhysState) (isJ : Bool) (yB : ℚ)
    (steps1 : ℕ) (recent1 : List ℚ) : ℚ :=
  (if jump = 1 then -(1/100) else 0)
  + (rabs (20 - x) - rabs (20 - p.x)) / 5
  + (if 0 < p.y - y then (p.y - y) / 10 else 0)
  - 1/100
  + (if decide (rabs p.vx < 1/1000) then -(1/20) else 0)
  + (if landingHitV1 isJ p then landingAdj (2/5) (p.y - yB) else 0)
  + stagnationPenalty recent1
  + (if reachedFlag p.x p.y then 10 + (1/10) * (1000 - (steps1 : ℚ)) else 0)

/-- One call of `BugPlatformEnv.step` for preset v0 (src/bug_platform_env.py
lines 105-299), composing the stages in source order. -/
def stepV0 (s : StateV0) (a : ℤ × ℤ) : StepResult StateV0 :=
  let jump := a.2
  let steps1 := s.steps + 1
  let vx1 := vxCmd a.1
  let trig := doJumpV0 s jump
  let vy1 : ℚ := if trig then 12 else s.vy
  let cooldown1 : ℕ := if trig then 60 else cooldownTick s.cooldown
  let isJ1 : Bool := if trig then true else s.isJumping
  let yB1 : ℚ := if trig then s.y else s.yBeforeJump
  let vy2 : ℚ := vy1 + (-30) * (1/50)
  let p1 : PhysState := ⟨s.x + vx1 * (1/50), s.y + vy2 * (1/50), vx1, vy2⟩
  let p2 := groundClamp p1
  let p3 := platformStage platformsV0 s.y p2
  let p4 := wallResolveV0 s.x s.y p3
  { state := { x := p4.x, y := p4.y, vx := p4.vx, vy := p4.vy,
               cooldown := cooldown1, prevJump := jump, isJumping :=
                 if landingHitV0 isJ1 p4 then false else isJ1,
               yBeforeJump := yB1, steps := steps1, rngSeed := s.rngSeed },
    reward := rewardV0 jump s.x s.y p4 isJ1 yB1 steps1,
    terminated := reachedFlag p4.x p4.y,
    truncated := decide (1000 ≤ steps1) }

/-- One call of `BugPlatformEnv.step` for preset v1
(src/bug_platform_env_v1.py lines 124-346). -/
def stepV1 (s : StateV1) (a : ℤ × ℤ) : StepResult StateV1 :=
  let jump := a.2
  let steps1 := s.steps + 1
  let vx1 := vxCmd a.1
  let trig := doJumpV1 s jump
  let vy1 : ℚ := if trig then 12 else s.vy
  let cooldown1 : ℕ := if trig then 40 else cooldownTick s.cooldown
  let isJ1 : Bool := if trig then true else s.isJumping
  let yB1 : ℚ := if trig then s.y else s.yBeforeJump
  let vy2 : ℚ := vy1 + (-30) * (1/50)
  let p1 : PhysState := ⟨s.x + vx1 * (1/50), s.y + vy2 * (1/50), vx1, vy2⟩
  let p2 := groundClamp p1
  let p3 := platformStage platformsV1 s.y p2
  let p4 := wallResolveV1 s.x s.y p3
  let recent1 := pushRecent s.recentX p4.x
  { state := { x := p4.x, y := p4.y, vx := p4.vx, vy := p4.vy,
               cooldown := cooldown1, prevJump := jump, isJumping :=
                 if landingHitV1 isJ1 p4 then false else isJ1,
               yBeforeJump := yB1, steps := steps1, recentX := recent1,
               rngSeed := s.rngSeed },
    reward := rewardV1 jump s.x s.y p4 isJ1 yB1 steps1 recent1,
    terminated := reachedFlag p4.x p4.y,
    truncated := decide (1000 ≤ steps1) }

/-- The state a freshly constructed v0 instance holds going into `reset`
(`__init__` sets the bookkeeping; `self.state` is only filled by `reset`). -/
def initV0 : StateV0 :=
  { x := 1, y := 0, vx := 0, vy := 0, cooldown := 0, prevJump := 0,
    isJumping := false, yBeforeJump := 0, steps := 0, rngSeed := none }

/-- The state a freshly constructed v1 instance holds going into `reset`. -/
def initV1 : StateV1 :=
  { x := 1, y := 0, vx := 0, vy := 0, cooldown := 0, prevJump := 0,
    isJumping := false, yBeforeJump := 0, steps := 0, recentX := [],
    rngSeed := none }

/-- `reset(seed)` on an existing v0 instance: reinitialises cooldown,
is_jumping, prev_jump, the state vector and the counter; `y_before_jump` is
not touched by `reset`, and the seed only feeds the unused generator. -/
def resetStateV0 (s : StateV0) (seed : Option ℕ) : StateV0 :=
  { x := 1, y := 0, vx := 0, vy := 0, cooldown := 0, prevJump := 0,
    isJumping := false, yBeforeJump := s.yBeforeJump, steps := 0,
    rngSeed := seed }

/-- `reset(seed)` on an existing v1 instance: additionally clears the
`recent_x` deque and appends start_x = 1. -/
def resetStateV1 (s : StateV1) (seed : Option ℕ) : StateV1 :=
  { x := 1, y := 0, vx := 0, vy := 0, cooldown := 0, prevJump := 0,
    isJumping := false, yBeforeJump := s.yBeforeJump, steps := 0,
    recentX := [1], rngSeed := seed }

/-- A fresh v0 instance after `reset(seed)`. -/
def resetV0 (seed : Option ℕ) : StateV0 := resetStateV0 initV0 seed

/-- A fresh v1 instance after `reset(seed)`. -/
def resetV1 (seed : Option ℕ) : StateV1 := resetStateV1 initV1 seed

/-- `_get_obs` for v0: the 8-element observation vector. -/
def getObsV0 (s : StateV0) : List ℚ :=
  [s.x, s.y, s.vx, s.vy, (s.cooldown : ℚ) / 60, 20 - s.x, 10 - s.x,
   if onGroundV0 s.x s.y then 1 else 0]

/-- `_get_obs` for v1 (cooldown_max 40, wall at 14). -/
def getObsV1 (s : StateV1) : List ℚ :=
  [s.x, s.y, s.vx, s.vy, (s.cooldown : ℚ) / 40, 20 - s.x, 14 - s.x,
   if onGroundV1 s.x s.y then 1 else 0]

/-- Trajectory of `(observation, reward, terminated, truncated)` tuples
produced by feeding an action list to a v0 instance. -/
def trajV0 (s : StateV0) : List (ℤ × ℤ) → List (List ℚ × ℚ × Bool × Bool)
  | [] => []
  | a :: rest =>
    (getObsV0 (stepV0 s a).state, (stepV0 s a).reward, (stepV0 s a).terminated,
      (stepV0 s a).truncated) :: trajV0 (stepV0 s a).state rest

/-- Trajectory of `(observation, reward, terminated, truncated)` tuples
produced by feeding an action list to a v1 instance. -/
def trajV1 (s : StateV1) : List (ℤ × ℤ) → List (List ℚ × ℚ × Bool × Bool)
  | [] => []
  | a :: rest =>
    (getObsV1 (stepV1 s a).state, (stepV1 s a).reward, (stepV1 s a).terminated,
      (stepV1 s a).truncated) :: trajV1 (stepV1 s a).state rest

/-- Accessor naming the physics result `p4` that a v0 step computes before
building its return value (identical to the chain inside `stepV0`). -/
def physV0 (s : StateV0) (a : ℤ × ℤ) : PhysState :=
  wallResolveV0 s.x s.y (platformStage platformsV0 s.y (groundClamp
    ⟨s.x + vxCmd a.1 * (1/50),
     s.y + ((if doJumpV0 s a.2 then 12 else s.vy) + (-30) * (1/50)) * (1/50),
     vxCmd a.1,
     (if doJumpV0 s a.2 then 12 else s.vy) + (-30) * (1/50)⟩))

/-- Accessor naming the physics result `p4` that a v1 step computes. -/
def physV1 (s : StateV1) (a : ℤ × ℤ) : PhysState :=
  wallResolveV1 s.x s.y (platformStage platformsV1 s.y (groundClamp
    ⟨s.x + vxCmd a.1 * (1/50),
     s.y + ((if doJumpV1 s a.2 then 12 else s.vy) + (-30) * (1/50)) * (1/50),
     vxCmd a.1,
     (if doJumpV1 s a.2 then 12 else s.vy) + (-30) * (1/50)⟩))

/-- The `is_jumping` flag as the reward code of a v0 step sees it (already
set when this step's trigger fired). -/
def isJTrigV0 (s : StateV0) (a : ℤ × ℤ) : Bool :=
  if doJumpV0 s a.2 then true else s.isJumping

/-- The `y_before_jump` value as the reward code of a v0 step sees it. -/
def yBTrigV0 (s : StateV0) (a : ℤ × ℤ) : ℚ :=
  if doJumpV0 s a.2 then s.y else s.yBeforeJump

/-- The `is_jumping` flag as the reward code of a v1 step sees it. -/
def isJTrigV1 (s : StateV1) (a : ℤ × ℤ) : Bool :=
  if doJumpV1 s a.2 then true else s.isJumping

/-- The `y_before_jump` value as the reward code of a v1 step sees it. -/
def yBTrigV1 (s : StateV1) (a : ℤ × ℤ) : ℚ :=
  if doJumpV1 s a.2 then s.y else s.yBeforeJump

/-- Comparison definition for the idle-penalty analysis: the v0 step reward
with the `Staying still penalty` line deleted and nothing else changed. -/
def rewardNoIdleV0 (jump : ℤ) (x y : ℚ) (p : PhysState) (isJ : Bool) (yB : ℚ)
    (steps1 : ℕ) : ℚ :=
  (if jump = 1 then -(1/50) else 0)
  + (rabs (20 - x) - rabs (20 - p.x)) / 5
  + (if 0 < p.y - y then (p.y - y) / 5 else 0)
  - 1/100
  + (if landingHitV0 isJ p then landingAdj 1 (p.y - yB) else 0)
  + (if reachedFlag p.x p.y then 10 + (1/10) * (1000 - (steps1 : ℚ)) else 0)

/-- Comparison definition for the idle-penalty analysis: the v1 step reward
with the `Staying still penalty` line deleted and nothing else changed. -/
def rewardNoIdleV1 (jump : ℤ) (x y : ℚ) (p : PhysState) (isJ : Bool) (yB : ℚ)
    (steps1 : ℕ) (recent1 : List ℚ) : ℚ :=
  (if jump = 1 then -(1/100) else 0)
  + (rabs (20 - x) - rabs (20 - p.x)) / 5
  + (if 0 < p.y - y then (p.y - y) / 10 else 0)
  - 1/100
  + (if landingHitV1 isJ p then landingAdj (2/5) (p.y - yB) else 0)
  + stagnationPenalty recent1
  + (if reachedFlag p.x p.y then 10 + (1/10) * (1000 - (steps1 : ℚ)) else 0)

/-- A v0 state hanging in mid-air (no surface anywhere near y = 5) at rest
horizontally, with the `is_jumping` flag clear: the player is airborne
without being mid-jump (as after walking off a ledge). -/
def midAirV0 : StateV0 :=
  { x := 7, y := 5, vx := 0, vy := 0, cooldown := 0, prevJump := 0,
    isJumping := false, yBeforeJump := 0, steps := 0, rngSeed := none }

/-- The same mid-air state with the `is_jumping` flag set, for contrast. -/
def midAirJumpV0 : StateV0 :=
  { x := 7, y := 5, vx := 0, vy := 0, cooldown := 0, prevJump := 0,
    isJumping := true, yBeforeJump := 0, steps := 0, rngSeed := none }

/-- Repeatedly holding the jump button: `k` calls of `step` with action
`(movement = 0, jump = 1)` from `s`. -/
def holdJumpV0 (s : StateV0) : ℕ → StateV0
  | 0 => s
  | k + 1 => (stepV0 (holdJumpV0 s k) (0, 1)).state

/-- The state after `n` calls of `step((movement = 2, jump = 0))` on a
freshly reset v0 instance: the walk-right-only policy of the termination
scenario. -/
def runRightV0 : ℕ → StateV0
  | 0 => resetV0 none
  | n + 1 => (stepV0 (runRightV0 n) (2, 0)).state

/-- The state after `n` calls of `step((0, 0))` (idle) on a freshly reset
v0 instance. -/
def runIdleV0 : ℕ → StateV0
  | 0 => resetV0 none
  | n + 1 => (stepV0 (runIdleV0 n) (0, 0)).state

/-- The fresh v0 start state with the step counter at `n`; the idle policy
keeps the environment exactly here. -/
def idleAtV0 (n : ℕ) : StateV0 :=
  { x := 1, y := 0, vx := 0, vy := 0, cooldown := 0, prevJump := 0,
    isJumping := false, yBeforeJump := 0, steps := n, rngSeed := none }

/-- Action schedule that reaches the flag exactly on step 1000: idle for 763
steps, walk right for 105 steps up to the wall, jump once, keep moving right
through the bug gap while airborne, then walk to the flag. -/
def actC4 (n : ℕ) : ℤ × ℤ :=
  if n < 763 then (0, 0)
  else if n < 868 then (2, 0)
  else if n = 868 then (2, 1)
  else (2, 0)

/-- The v0 state after the first `n` actions of the `actC4` schedule. -/
def runC4 : ℕ → StateV0
  | 0 => resetV0 none
  | n + 1 => (stepV0 (runC4 n) (actC4 n)).state

/-! ### Field characterisations of a step (all definitional) -/

theorem stepV0_state_steps (s : StateV0) (a : ℤ × ℤ) :
    (stepV0 s a).state.steps = s.steps + 1 := rfl

theorem stepV0_state_prevJump (s : StateV0) (a : ℤ × ℤ) :
    (stepV0 s a).state.prevJump = a.2 := rfl

theorem stepV0_state_cooldown (s : StateV0) (a : ℤ × ℤ) :
    (stepV0 s a).state.cooldown =
      if doJumpV0 s a.2 then 60 else cooldownTick s.cooldown := rfl

theorem stepV0_state_x (s : StateV0) (a : ℤ × ℤ) :
    (stepV0 s a).state.x = (physV0 s a).x := rfl

theorem stepV0_state_y (s : StateV0) (a : ℤ × ℤ) :
    (stepV0 s a).state.y = (physV0 s a).y := rfl

theorem stepV1_state_y (s : StateV1) (a : ℤ × ℤ) :
    (stepV1 s a).state.y = (physV1 s a).y := rfl

theorem stepV0_terminated (s : StateV0) (a : ℤ × ℤ) :
    (stepV0 s a).terminated =
      reachedFlag (stepV0 s a).state.x (stepV0 s a).state.y := rfl

theorem stepV0_truncated (s : StateV0) (a : ℤ × ℤ) :
    (stepV0 s a).truncated = decide (1000 ≤ s.steps + 1) := rfl

theorem stepV0_reward_eq (s : StateV0) (a : ℤ × ℤ) :
    (stepV0 s a).reward =
      rewardV0 a.2 s.x s.y (physV0 s a) (isJTrigV0 s a) (yBTrigV0 s a)
        (s.steps + 1) := rfl

theorem stepV1_reward_eq (s : StateV1) (a : ℤ × ℤ) :
    (stepV1 s a).reward =
      rewardV1 a.2 s.x s.y (physV1 s a) (isJTrigV1 s a) (yBTrigV1 s a)
        (s.steps + 1) (pushRecent s.recentX (physV1 s a).x) := rfl

/-! ### C1: bug-gap transparency vs lateral wall block -/

/-- C1: in both presets, when the proposed position overlaps the wall and the
pre-step `y` lies in the bug-gap band, the wall stage leaves `x_new` and `vx`
untouched; when the pre-step `y` is outside the band and below the wall
height, the same overlap clamps `x_new` to the nearer wall face
(`wall_left - half_width` if the previous `x` was left of `wall_x`, else
`wall_right + half_width`) and zeroes `vx`. -/
theorem C1_wall_gap_vs_block (x y : ℚ) (p : PhysState) :
    (inGapV0 y = true → wallOverlapV0 p = true →
      (wallResolveV0 x y p).x = p.x ∧ (wallResolveV0 x y p).vx = p.vx) ∧
    (inGapV0 y = false → y < 7 → wallOverlapV0 p = true →
      (wallResolveV0 x y p).x =
        (if x < 10 then 97/10 - 3/10 else 103/10 + 3/10) ∧
      (wallResolveV0 x y p).vx = 0) ∧
    (inGapV1 y = true → wallOverlapV1 p = true →
      (wallResolveV1 x y p).x = p.x ∧ (wallResolveV1 x y p).vx = p.vx) ∧
    (inGapV1 y = false → y < 17/2 → wallOverlapV1 p = true →
      (wallResolveV1 x y p).x =
        (if x < 14 then 137/10 - 3/10 else 143/10 + 3/10) ∧
      (wallResolveV1 x y p).vx = 0) := by
  refine ⟨?_, ?_, ?_, ?_⟩
  · intro hg ho
    simp only [wallResolveV0, ho, if_true, hg]
    split <;> try split
    all_goals simp
  · intro hg hy ho
    simp only [wallResolveV0, ho, if_true, hg, Bool.false_eq_true, if_false]
    rw [if_neg (by simpa using hy)]
    by_cases hx : x < 10
    · rw [if_pos hx, if_pos hx]
      exact ⟨rfl, rfl⟩
    · rw [if_neg hx, if_neg hx]
      exact ⟨rfl, rfl⟩
  · intro hg ho
    simp only [wallResolveV1, ho, if_true, hg]
    split <;> try split
    all_goals simp
  · intro hg hy ho
    simp only [wallResolveV1, ho, if_true, hg, Bool.false_eq_true, if_false]
    rw [if_neg (by simpa using hy)]
    by_cases hx : x < 14
    · rw [if_pos hx, if_pos hx]
      exact ⟨rfl, rfl⟩
    · rw [if_neg hx, if_neg hx]
      exact ⟨rfl, rfl⟩

/-- Witness for C1 at concrete overlapping positions: in the gap band the
motion passes through with `vx` intact; outside it the position snaps to the
wall face with `vx = 0` (both presets). -/
theorem C1_wall_gap_vs_block_witness :
    ((wallResolveV0 (47/5) 2 ⟨237/25, 21/10, 4, -(3/5)⟩).x = 237/25 ∧
      (wallResolveV0 (47/5) 2 ⟨237/25, 21/10, 4, -(3/5)⟩).vx = 4) ∧
    ((wallResolveV0 (47/5) (1/2) ⟨237/25, 1/2, 4, 0⟩).x = 47/5 ∧
      (wallResolveV0 (47/5) (1/2) ⟨237/25, 1/2, 4, 0⟩).vx = 0) ∧
    ((wallResolveV1 (27/2) (28/5) ⟨27/2, 57/10, 4, -(3/5)⟩).x = 27/2 ∧
      (wallResolveV1 (27/2) (28/5) ⟨27/2, 57/10, 4, -(3/5)⟩).vx = 4) ∧
    ((wallResolveV1 (27/2) 2 ⟨27/2, 2, 4, 0⟩).x = 67/5 ∧
      (wallResolveV1 (27/2) 2 ⟨27/2, 2, 4, 0⟩).vx = 0) := by
  refine ⟨?_, ?_, ?_, ?_⟩
  · exact (C1_wall_gap_vs_block (47/5) 2 ⟨237/25, 21/10, 4, -(3/5)⟩).1
      (by norm_num [inGapV0]) (by norm_num [wallOverlapV0])
  · have h := (C1_wall_gap_vs_block (47/5) (1/2) ⟨237/25, 1/2, 4, 0⟩).2.1
      (by norm_num [inGapV0]) (by norm_num) (by norm_num [wallOverlapV0])
    rw [if_pos (by norm_num : (47:ℚ)/5 < 10)] at h
    refine ⟨h.1.trans (by norm_num), h.2⟩
  · exact (C1_wall_gap_vs_block (27/2) (28/5) ⟨27/2, 57/10, 4, -(3/5)⟩).2.2.1
      (by norm_num [inGapV1]) (by norm_num [wallOverlapV1])
  · have h := (C1_wall_gap_vs_block (27/2) 2 ⟨27/2, 2, 4, 0⟩).2.2.2
      (by norm_num [inGapV1]) (by norm_num) (by norm_num [wallOverlapV1])
    rw [if_pos (by norm_num : (27:ℚ)/2 < 14)] at h
    refine ⟨h.1.trans (by norm_num), h.2⟩

/-! ### C7: first-match platform resolution -/

theorem firstHit_append_of_prefix_false (l1 l2 : List (ℚ × ℚ × ℚ))
    (yPrev yNew xNew : ℚ)
    (h : ∀ r ∈ l1, platHit yPrev yNew xNew r = false) :
    firstHit (l1 ++ l2) yPrev yNew xNew = firstHit l2 yPrev yNew xNew := by
  induction l1 with
  | nil => rfl
  | cons p rest ih =>
    simp only [List.cons_append, firstHit, h p (List.mem_cons_self p rest),
      Bool.false_eq_true, if_false]
    exact ih fun r hr => h r (List.mem_cons_of_mem p hr)

/-- C7: the platform stage only runs while falling, and the first platform in
list order whose crossing and overlap test passes receives the snap
(`y_new` to its top, `vy` to 0); every platform after the first match is
ignored, whatever it is. -/
theorem C7_platform_first_match (yPrev : ℚ) (q : PhysState)
    (l1 l2 : List (ℚ × ℚ × ℚ)) (p : ℚ × ℚ × ℚ)
    (hv : q.vy < 0) (h1 : ∀ r ∈ l1, platHit yPrev q.y q.x r = false)
    (hp : platHit yPrev q.y q.x p = true) :
    platformStage (l1 ++ p :: l2) yPrev q =
      { q with y := platTop p, vy := 0 } ∧
    ∀ (l : List (ℚ × ℚ × ℚ)) (r : PhysState), 0 ≤ r.vy →
      platformStage l yPrev r = r := by
  constructor
  · unfold platformStage
    rw [if_pos hv, firstHit_append_of_prefix_false l1 (p :: l2) yPrev q.y q.x h1,
      firstHit, if_pos hp]
  · intro l r hr
    unfold platformStage
    rw [if_neg (not_lt.mpr hr)]

/-- Witness for C7: falling from y = 3.3 to y = 3.1 at x = 7 over the v0
list, platform 1 fails its crossing test, platform 2 `(6, 9, 3)` matches and
wins, and replacing everything after platform 2 by a platform whose top 3.15
would be geometrically closer changes nothing. -/
theorem C7_platform_first_match_witness :
    platformStage platformsV0 (33/10) ⟨7, 31/10, 4, -3⟩ = ⟨7, 16/5, 4, 0⟩ ∧
    platformStage [(4, 17/2, 3/2), (6, 9, 3), (0, 100, 59/20)] (33/10)
      ⟨7, 31/10, 4, -3⟩ = ⟨7, 16/5, 4, 0⟩ := by
  constructor
  · have h := (C7_platform_first_match (33/10) ⟨7, 31/10, 4, -3⟩
      [(4, 17/2, 3/2)] [(5, 13/2, 9/2), (7, 10, 6)] (6, 9, 3)
      (by norm_num)
      (by intro r hr; simp only [List.mem_singleton] at hr; subst hr
          norm_num [platHit, platTop])
      (by norm_num [platHit, platTop])).1
    simp only [List.cons_append, List.nil_append] at h
    rw [show platformsV0 = [((4 : ℚ), (17 : ℚ)/2, (3 : ℚ)/2), (6, 9, 3),
      (5, 13/2, 9/2), (7, 10, 6)] from rfl, h]
    norm_num [platTop, PhysState.mk.injEq]
  · have h := (C7_platform_first_match (33/10) ⟨7, 31/10, 4, -3⟩
      [(4, 17/2, 3/2)] [(0, 100, 59/20)] (6, 9, 3)
      (by norm_num)
      (by intro r hr; simp only [List.mem_singleton] at hr; subst hr
          norm_num [platHit, platTop])
      (by norm_num [platHit, platTop])).1
    simp only [List.cons_append, List.nil_append] at h
    rw [h]
    norm_num [platTop, PhysState.mk.injEq]

/-! ### C2: the ground invariant -/

theorem groundClamp_y_nonneg (p : PhysState) : 0 ≤ (groundClamp p).y := by
  unfold groundClamp
  split
  next h => simp
  next h => simpa using not_lt.mp h

theorem firstHit_mem {l : List (ℚ × ℚ × ℚ)} {yPrev yNew xNew t : ℚ}
    (h : firstHit l yPrev yNew xNew = some t) : ∃ r ∈ l, t = platTop r := by
  induction l with
  | nil => simp [firstHit] at h
  | cons p rest ih =>
    rw [firstHit] at h
    by_cases hp : platHit yPrev yNew xNew p = true
    · rw [if_pos hp] at h
      exact ⟨p, List.mem_cons_self p rest, (Option.some_inj.mp h).symm⟩
    · rw [if_neg hp] at h
      obtain ⟨r, hr, ht⟩ := ih h
      exact ⟨r, List.mem_cons_of_mem _ hr, ht⟩

theorem platformStage_y_nonneg (plats : List (ℚ × ℚ × ℚ)) (yPrev : ℚ)
    (p : PhysState) (hp : 0 ≤ p.y) (hl : ∀ r ∈ plats, 0 ≤ platTop r) :
    0 ≤ (platformStage plats yPrev p).y := by
  unfold platformStage
  split
  · cases hfh : firstHit plats yPrev p.y p.x with
    | none => exact hp
    | some t =>
      obtain ⟨r, hr, rfl⟩ := firstHit_mem hfh
      exact hl r hr
  · exact hp

theorem wallResolveV0_y_nonneg (x y : ℚ) (p : PhysState) (hp : 0 ≤ p.y) :
    0 ≤ (wallResolveV0 x y p).y := by
  unfold wallResolveV0
  split_ifs <;> first | exact hp | norm_num

theorem wallResolveV1_y_nonneg (x y : ℚ) (p : PhysState) (hp : 0 ≤ p.y) :
    0 ≤ (wallResolveV1 x y p).y := by
  unfold wallResolveV1
  split_ifs <;> first | exact hp | norm_num

/-- C2: after any step from any state with any action, the stored
y-coordinate is nonnegative, in both presets (this holds for all states, so
in particular for all reachable ones). -/
theorem C2_y_nonneg (a : ℤ × ℤ) :
    (∀ s : StateV0, 0 ≤ (stepV0 s a).state.y) ∧
    (∀ s : StateV1, 0 ≤ (stepV1 s a).state.y) := by
  constructor
  · intro s
    rw [stepV0_state_y]
    unfold physV0
    refine wallResolveV0_y_nonneg _ _ _
      (platformStage_y_nonneg _ _ _ (groundClamp_y_nonneg _) ?_)
    intro r hr
    simp only [platformsV0, List.mem_cons, List.not_mem_nil, or_false] at hr
    rcases hr with rfl | rfl | rfl | rfl <;> norm_num [platTop]
  · intro s
    rw [stepV1_state_y]
    unfold physV1
    refine wallResolveV1_y_nonneg _ _ _
      (platformStage_y_nonneg _ _ _ (groundClamp_y_nonneg _) ?_)
    intro r hr
    simp only [platformsV1, List.mem_cons, List.not_mem_nil, or_false] at hr
    rcases hr with rfl | rfl | rfl | rfl | rfl <;> norm_num [platTop]

/-! ### More definitional step facts -/

theorem stepV0_state_vx (s : StateV0) (a : ℤ × ℤ) :
    (stepV0 s a).state.vx = (physV0 s a).vx := rfl

theorem stepV0_state_vy (s : StateV0) (a : ℤ × ℤ) :
    (stepV0 s a).state.vy = (physV0 s a).vy := rfl

theorem stepV0_state_isJumping (s : StateV0) (a : ℤ × ℤ) :
    (stepV0 s a).state.isJumping =
      (if landingHitV0 (isJTrigV0 s a) (physV0 s a) then false
       else isJTrigV0 s a) := rfl

theorem stepV0_state_yBeforeJump (s : StateV0) (a : ℤ × ℤ) :
    (stepV0 s a).state.yBeforeJump = yBTrigV0 s a := rfl

theorem stepV0_state_rngSeed (s : StateV0) (a : ℤ × ℤ) :
    (stepV0 s a).state.rngSeed = s.rngSeed := rfl

/-! ### C5: contract violations are silently tolerated -/

theorem stepV0_state_steps_set (s : StateV0) (n : ℕ) (a : ℤ × ℤ) :
    (stepV0 { s with steps := n } a).state =
      { (stepV0 s a).state with steps := n + 1 } := rfl

theorem idleFixV0 (n : ℕ) :
    (stepV0 (idleAtV0 n) (0, 0)).state = idleAtV0 (n + 1) := by
  have h0 : (stepV0 (idleAtV0 0) (0, 0)).state = idleAtV0 1 := by
    norm_num [stepV0, rewardV0, doJumpV0, onGroundV0, cooldownTick, vxCmd,
      groundClamp, platformStage, firstHit, platHit, platTop, wallResolveV0,
      wallOverlapV0, inGapV0, landingHitV0, landingAdj, reachedFlag, rabs,
      platformsV0, idleAtV0, StateV0.mk.injEq]
  calc (stepV0 (idleAtV0 n) (0, 0)).state
      = (stepV0 { idleAtV0 0 with steps := n } (0, 0)).state := rfl
    _ = { (stepV0 (idleAtV0 0) (0, 0)).state with steps := n + 1 } :=
        stepV0_state_steps_set (idleAtV0 0) n (0, 0)
    _ = { idleAtV0 1 with steps := n + 1 } := by rw [h0]
    _ = idleAtV0 (n + 1) := rfl

theorem runIdleV0_eq (n : ℕ) : runIdleV0 n = idleAtV0 n := by
  induction n with
  | zero => rfl
  | succ k ih => rw [runIdleV0, ih, idleFixV0]

theorem stepV0_movement_congr (s : StateV0) (m mo j : ℤ)
    (h : vxCmd m = vxCmd mo) : stepV0 s (m, j) = stepV0 s (mo, j) := by
  unfold stepV0
  dsimp only
  rw [h]

theorem stepV1_movement_congr (s : StateV1) (m mo j : ℤ)
    (h : vxCmd m = vxCmd mo) : stepV1 s (m, j) = stepV1 s (mo, j) := by
  unfold stepV1
  dsimp only
  rw [h]

/-- C5 (amended): neither condition is surfaced as an error.  `step` is total
and always advances the step counter, even on an episode that has already
terminated or truncated, and an out-of-range movement value is silently
interpreted as `no movement` (and an out-of-range jump value as `not
pressed`), in both presets. -/
theorem C5_no_error_surfaced :
    (∀ (s : StateV0) (a : ℤ × ℤ), (stepV0 s a).state.steps = s.steps + 1) ∧
    (∀ (s : StateV0) (m j : ℤ), m ≠ 1 → m ≠ 2 →
      stepV0 s (m, j) = stepV0 s (0, j)) ∧
    (∀ (s : StateV1) (a : ℤ × ℤ), (stepV1 s a).state.steps = s.steps + 1) ∧
    (∀ (s : StateV1) (m j : ℤ), m ≠ 1 → m ≠ 2 →
      stepV1 s (m, j) = stepV1 s (0, j)) := by
  refine ⟨fun s a => rfl, ?_, fun s a => rfl, ?_⟩
  · intro s m j h1 h2
    exact stepV0_movement_congr s m 0 j (by simp [vxCmd, h1, h2])
  · intro s m j h1 h2
    exact stepV1_movement_congr s m 0 j (by simp [vxCmd, h1, h2])

/-- Witness for C5 (amended) at concrete inputs. -/
theorem C5_no_error_surfaced_witness :
    (stepV0 (resetV0 none) (0, 0)).state.steps = 1 ∧
    stepV0 (resetV0 none) (5, 0) = stepV0 (resetV0 none) (0, 0) ∧
    stepV1 (resetV1 none) (7, 1) = stepV1 (resetV1 none) (0, 1) :=
  ⟨C5_no_error_surfaced.1 (resetV0 none) (0, 0),
   C5_no_error_surfaced.2.1 (resetV0 none) 5 0 (by norm_num) (by norm_num),
   C5_no_error_surfaced.2.2.2 (resetV1 none) 7 1 (by norm_num) (by norm_num)⟩

/-- C5 counterexample: the 1000th idle call truncates the episode, and a
further `step` call is accepted as if nothing happened: the counter advances
to 1001 and a normal result (again flagged truncated) is returned; likewise
an out-of-range action (movement = 5) is processed exactly like a legal
no-movement action instead of failing. -/
theorem C5_counterexample :
    (stepV0 (runIdleV0 999) (0, 0)).truncated = true ∧
    (stepV0 (runIdleV0 1000) (0, 0)).state.steps = 1001 ∧
    (stepV0 (runIdleV0 1000) (0, 0)).truncated = true ∧
    (stepV0 (runIdleV0 1000) (0, 0)).state.x = 1 ∧
    stepV0 (runIdleV0 1000) (5, 0) = stepV0 (runIdleV0 1000) (0, 0) := by
  rw [runIdleV0_eq 999, runIdleV0_eq 1000]
  refine ⟨?_, ?_, ?_, ?_, ?_⟩
  · rw [stepV0_truncated]
    norm_num [idleAtV0]
  · rw [stepV0_state_steps]
    norm_num [idleAtV0]
  · rw [stepV0_truncated]
    norm_num [idleAtV0]
  · have h := idleFixV0 1000
    rw [show (stepV0 (idleAtV0 1000) (0, 0)).state.x =
      ((stepV0 (idleAtV0 1000) (0, 0)).state).x from rfl, h]
    rfl
  · exact stepV0_movement_congr (idleAtV0 1000) 5 0 0 (by norm_num [vxCmd])

/-! ### C9: what gates the idle penalty -/

/-- C9 (amended): in both presets the actual step reward equals the
idle-penalty-free reward plus the idle term; the v0 idle term fires exactly
when `|vx| < 0.001` and the `is_jumping` flag is clear (not when the player
is grounded), the v1 idle term exactly when `|vx| < 0.001`. -/
theorem C9_idle_penalty_gate :
    (∀ (s : StateV0) (a : ℤ × ℤ),
      (stepV0 s a).reward =
        rewardNoIdleV0 a.2 s.x s.y (physV0 s a) (isJTrigV0 s a)
          (yBTrigV0 s a) (s.steps + 1)
        + (if decide (rabs (physV0 s a).vx < 1/1000) && !(isJTrigV0 s a)
            then -(1/20) else 0)) ∧
    (∀ (s : StateV1) (a : ℤ × ℤ),
      (stepV1 s a).reward =
        rewardNoIdleV1 a.2 s.x s.y (physV1 s a) (isJTrigV1 s a)
          (yBTrigV1 s a) (s.steps + 1) (pushRecent s.recentX (physV1 s a).x)
        + (if decide (rabs (physV1 s a).vx < 1/1000) then -(1/20) else 0)) := by
  constructor
  · intro s a
    rw [stepV0_reward_eq]
    unfold rewardV0 rewardNoIdleV0
    ring
  · intro s a
    rw [stepV1_reward_eq]
    unfold rewardV1 rewardNoIdleV1
    ring

/-- C9 counterexample: a mid-air v0 state (no surface near y = 5, airborne
before and after the step) with `vx = 0` and `is_jumping` clear receives the
idle penalty (total reward -0.06 = step penalty -0.01 plus idle -0.05),
while the identical state with `is_jumping` set does not (reward -0.01): the
v0 gate is the `is_jumping` flag, not airborneness. -/
theorem C9_counterexample :
    (stepV0 midAirV0 (0, 0)).reward = -(3/50) ∧
    (stepV0 midAirJumpV0 (0, 0)).reward = -(1/100) ∧
    midAirV0.isJumping = false ∧
    onGroundV0 midAirV0.x midAirV0.y = false ∧
    onGroundV0 (stepV0 midAirV0 (0, 0)).state.x
      (stepV0 midAirV0 (0, 0)).state.y = false ∧
    (stepV0 midAirV0 (0, 0)).state.vx = 0 := by
  refine ⟨?_, ?_, rfl, ?_, ?_, ?_⟩ <;>
    norm_num [stepV0, rewardV0, doJumpV0, onGroundV0, cooldownTick, vxCmd,
      groundClamp, platformStage, firstHit, platHit, platTop, wallResolveV0,
      wallOverlapV0, inGapV0, landingHitV0, landingAdj, reachedFlag, rabs,
      platformsV0, midAirV0, midAirJumpV0]

/-! ### C6 and C10: determinism and seed irrelevance -/

/-- C6: two independent instances reset with the same seed and fed the same
action sequence produce identical observations, rewards and episode flags at
every step (the simulation consults no source of nondeterminism; the exact
float32 arithmetic of one platform is modelled exactly over the rationals). -/
theorem C6_determinism (seed : Option ℕ) (acts : List (ℤ × ℤ))
    (i1 i2 : StateV0) (h1 : i1 = resetV0 seed) (h2 : i2 = resetV0 seed) :
    getObsV0 i1 = getObsV0 i2 ∧ trajV0 i1 acts = trajV0 i2 acts := by
  subst h1; subst h2; exact ⟨rfl, rfl⟩

/-- Witness for C6 at a concrete seed and action sequence. -/
theorem C6_determinism_witness :
    getObsV0 (resetV0 (some 42)) = getObsV0 (resetV0 (some 42)) ∧
    trajV0 (resetV0 (some 42)) [(2, 0), (0, 1)] =
      trajV0 (resetV0 (some 42)) [(2, 0), (0, 1)] :=
  C6_determinism (some 42) [(2, 0), (0, 1)] _ _ rfl rfl

theorem stepV0_rngSeed_set (s : StateV0) (o : Option ℕ) (a : ℤ × ℤ) :
    stepV0 { s with rngSeed := o } a =
      { state := { (stepV0 s a).state with rngSeed := o },
        reward := (stepV0 s a).reward,
        terminated := (stepV0 s a).terminated,
        truncated := (stepV0 s a).truncated } := rfl

theorem getObsV0_rngSeed_set (s : StateV0) (o : Option ℕ) :
    getObsV0 { s with rngSeed := o } = getObsV0 s := rfl

theorem trajV0_rngSeed_set (s : StateV0) (o : Option ℕ)
    (acts : List (ℤ × ℤ)) :
    trajV0 { s with rngSeed := o } acts = trajV0 s acts := by
  induction acts generalizing s with
  | nil => rfl
  | cons a rest ih =>
    rw [trajV0, trajV0, stepV0_rngSeed_set]
    dsimp only
    rw [getObsV0_rngSeed_set, ih]

theorem stepV1_rngSeed_set (s : StateV1) (o : Option ℕ) (a : ℤ × ℤ) :
    stepV1 { s with rngSeed := o } a =
      { state := { (stepV1 s a).state with rngSeed := o },
        reward := (stepV1 s a).reward,
        terminated := (stepV1 s a).terminated,
        truncated := (stepV1 s a).truncated } := rfl

theorem getObsV1_rngSeed_set (s : StateV1) (o : Option ℕ) :
    getObsV1 { s with rngSeed := o } = getObsV1 s := rfl

theorem trajV1_rngSeed_set (s : StateV1) (o : Option ℕ)
    (acts : List (ℤ × ℤ)) :
    trajV1 { s with rngSeed := o } acts = trajV1 s acts := by
  induction acts generalizing s with
  | nil => rfl
  | cons a rest ih =>
    rw [trajV1, trajV1, stepV1_rngSeed_set]
    dsimp only
    rw [getObsV1_rngSeed_set, ih]

/-- C10: the seed passed to `reset` has no effect: any two seeds (present or
absent) give the same initial observation and, under any action sequence,
identical trajectories, and the initial state is always `(1, 0, 0, 0)` with
cooldown 0, `is_jumping` false and `prev_jump` 0 — in both presets. -/
theorem C10_seed_no_effect (o1 o2 : Option ℕ) (acts : List (ℤ × ℤ)) :
    getObsV0 (resetV0 o1) = getObsV0 (resetV0 o2) ∧
    trajV0 (resetV0 o1) acts = trajV0 (resetV0 o2) acts ∧
    getObsV1 (resetV1 o1) = getObsV1 (resetV1 o2) ∧
    trajV1 (resetV1 o1) acts = trajV1 (resetV1 o2) acts ∧
    ((resetV0 o1).x = 1 ∧ (resetV0 o1).y = 0 ∧ (resetV0 o1).vx = 0 ∧
      (resetV0 o1).vy = 0 ∧ (resetV0 o1).cooldown = 0 ∧
      (resetV0 o1).isJumping = false ∧ (resetV0 o1).prevJump = 0 ∧
      (resetV0 o1).steps = 0) ∧
    ((resetV1 o1).x = 1 ∧ (resetV1 o1).y = 0 ∧ (resetV1 o1).vx = 0 ∧
      (resetV1 o1).vy = 0 ∧ (resetV1 o1).cooldown = 0 ∧
      (resetV1 o1).isJumping = false ∧ (resetV1 o1).prevJump = 0 ∧
      (resetV1 o1).steps = 0 ∧ (resetV1 o1).recentX = [1]) := by
  refine ⟨rfl, ?_, rfl, ?_,
    ⟨rfl, rfl, rfl, rfl, rfl, rfl, rfl, rfl⟩,
    ⟨rfl, rfl, rfl, rfl, rfl, rfl, rfl, rfl, rfl⟩⟩
  · exact trajV0_rngSeed_set (resetV0 o2) o1 acts
  · exact trajV1_rngSeed_set (resetV1 o2) o1 acts

/-! ### C8: the jump edge trigger and cooldown -/

/-- C8: from any grounded resting state with cooldown 0 and previous jump bit
0, holding `jump = 1` triggers the jump exactly on the first step — the
trigger condition holds before step 1 and at no later step, because the
previous-jump bit is stored unconditionally every step — and the cooldown,
set to 60 by the trigger, then decrements by exactly 1 per step until it
reaches 0 (`61 - k` is truncated subtraction). -/
theorem C8_jump_edge_trigger (s : StateV0)
    (hg : onGroundV0 s.x s.y = true) (hc : s.cooldown = 0)
    (hp : s.prevJump = 0) (hv : s.vy = 0) :
    doJumpV0 s 1 = true ∧
    (∀ k, 1 ≤ k → doJumpV0 (holdJumpV0 s k) 1 = false) ∧
    (∀ k, 1 ≤ k → (holdJumpV0 s k).prevJump = 1) ∧
    (∀ k, 1 ≤ k → (holdJumpV0 s k).cooldown = 61 - k) := by
  have hd : doJumpV0 s 1 = true := by
    unfold doJumpV0
    rw [hp, hc, hv]
    norm_num [cooldownTick, hg]
  have key : ∀ k, 1 ≤ k →
      (holdJumpV0 s k).prevJump = 1 ∧ (holdJumpV0 s k).cooldown = 61 - k := by
    intro k hk
    induction k, hk using Nat.le_induction with
    | base =>
      constructor
      · rw [show holdJumpV0 s 1 = (stepV0 (holdJumpV0 s 0) (0, 1)).state
          from rfl, stepV0_state_prevJump]
      · rw [show holdJumpV0 s 1 = (stepV0 (holdJumpV0 s 0) (0, 1)).state
          from rfl, stepV0_state_cooldown]
        rw [show holdJumpV0 s 0 = s from rfl]
        rw [show ((0 : ℤ), (1 : ℤ)).2 = (1 : ℤ) from rfl, hd]
        rfl
    | succ n hn ih =>
      have hnd : doJumpV0 (holdJumpV0 s n) 1 = false := by
        unfold doJumpV0
        rw [ih.1]
        norm_num
      constructor
      · rw [show holdJumpV0 s (n + 1) = (stepV0 (holdJumpV0 s n) (0, 1)).state
          from rfl, stepV0_state_prevJump]
      · rw [show holdJumpV0 s (n + 1) = (stepV0 (holdJumpV0 s n) (0, 1)).state
          from rfl, stepV0_state_cooldown]
        rw [show ((0 : ℤ), (1 : ℤ)).2 = (1 : ℤ) from rfl, hnd]
        rw [if_neg (by simp), ih.2]
        unfold cooldownTick
        split <;> omega
  refine ⟨hd, ?_, fun k hk => (key k hk).1, fun k hk => (key k hk).2⟩
  intro k hk
  unfold doJumpV0
  rw [(key k hk).1]
  norm_num

/-- Witness for C8 from the fresh start state: the trigger fires on step 1,
is suppressed while the button stays held, and the cooldown reads 51 after
10 held steps (60 set on the trigger, then 9 decrements). -/
theorem C8_jump_edge_trigger_witness :
    doJumpV0 (resetV0 none) 1 = true ∧
    doJumpV0 (holdJumpV0 (resetV0 none) 3) 1 = false ∧
    (holdJumpV0 (resetV0 none) 10).cooldown = 51 := by
  have h := C8_jump_edge_trigger (resetV0 none)
    (by norm_num [onGroundV0, rabs, resetV0, resetStateV0, initV0])
    rfl rfl rfl
  exact ⟨h.1, h.2.1 3 (by norm_num),
    (h.2.2.2 10 (by norm_num)).trans (by norm_num)⟩

/-! ### Walking on the ground: symbolic single-step lemmas -/

theorem walkLeftStepV0 (s : StateV0) (hy : s.y = 0) (hvy : s.vy = 0)
    (hx : s.x ≤ 47/5) :
    (stepV0 s (2, 0)).state =
    { x := if 233/25 < s.x then 47/5 else s.x + 2/25, y := 0,
      vx := if 233/25 < s.x then 0 else 4, vy := 0,
      cooldown := cooldownTick s.cooldown, prevJump := 0,
      isJumping := false, yBeforeJump := s.yBeforeJump,
      steps := s.steps + 1, rngSeed := s.rngSeed } := by
  have hj : doJumpV0 s 0 = false := by simp [doJumpV0]
  have hphys : physV0 s (2, 0) =
      wallResolveV0 s.x 0 ⟨s.x + 2/25, 0, 4, 0⟩ := by
    unfold physV0
    dsimp only
    rw [hvy, hy, hj]
    norm_num [vxCmd, groundClamp, platformStage]
  have hisj : isJTrigV0 s (2, 0) = s.isJumping := by
    simp [isJTrigV0, hj]
  have hyb : yBTrigV0 s (2, 0) = s.yBeforeJump := by
    simp [yBTrigV0, hj]
  have hgap : ¬ (inGapV0 (0 : ℚ) = true) := by norm_num [inGapV0]
  have hwall : wallResolveV0 s.x 0 ⟨s.x + 2/25, 0, 4, 0⟩ =
      ⟨if 233/25 < s.x then 47/5 else s.x + 2/25, 0,
       if 233/25 < s.x then 0 else 4, 0⟩ := by
    by_cases hb : 233/25 < s.x
    · have hov : wallOverlapV0 ⟨s.x + 2/25, 0, 4, 0⟩ = true := by
        simp only [wallOverlapV0, Bool.and_eq_true, decide_eq_true_eq]
        refine ⟨⟨by linarith, by linarith⟩, by norm_num⟩
      unfold wallResolveV0
      simp only [hov, if_true]
      rw [if_neg hgap, if_neg (by norm_num), if_pos (by linarith : s.x < 10),
        if_pos hb, if_pos hb]
      norm_num [PhysState.mk.injEq]
    · have hnov : wallOverlapV0 ⟨s.x + 2/25, 0, 4, 0⟩ = false := by
        have h1 : ¬ ((97 : ℚ)/10 < s.x + 2/25 + 3/10) := by
          push_neg at hb ⊢
          linarith
        simp [wallOverlapV0, h1]
      unfold wallResolveV0
      simp only [hnov, Bool.false_eq_true, if_false]
      rw [if_neg hb, if_neg hb]
  have hland : landingHitV0 s.isJumping (physV0 s (2, 0)) = s.isJumping := by
    rw [hphys, hwall]
    split
    all_goals
      norm_num [landingHitV0, onGroundV0, rabs]
  ext
  · rw [stepV0_state_x, hphys, hwall]
  · rw [stepV0_state_y, hphys, hwall]
  · rw [stepV0_state_vx, hphys, hwall]
  · rw [stepV0_state_vy, hphys, hwall]
  · rw [stepV0_state_cooldown]
    rw [show ((2 : ℤ), (0 : ℤ)).2 = (0 : ℤ) from rfl, hj]
    simp
  · rw [stepV0_state_prevJump]
  · rw [stepV0_state_isJumping, hisj, hland]
    cases s.isJumping <;> simp
  · rw [stepV0_state_yBeforeJump, hyb]
  · rw [stepV0_state_steps]
  · rw [stepV0_state_rngSeed]

theorem walkRightStepV0 (s : StateV0) (hy : s.y = 0) (hvy : s.vy = 0)
    (hx : 263/25 ≤ s.x) :
    (stepV0 s (2, 0)).state =
    { x := s.x + 2/25, y := 0, vx := 4, vy := 0,
      cooldown := cooldownTick s.cooldown, prevJump := 0,
      isJumping := false, yBeforeJump := s.yBeforeJump,
      steps := s.steps + 1, rngSeed := s.rngSeed } := by
  have hj : doJumpV0 s 0 = false := by simp [doJumpV0]
  have hphys : physV0 s (2, 0) =
      wallResolveV0 s.x 0 ⟨s.x + 2/25, 0, 4, 0⟩ := by
    unfold physV0
    dsimp only
    rw [hvy, hy, hj]
    norm_num [vxCmd, groundClamp, platformStage]
  have hisj : isJTrigV0 s (2, 0) = s.isJumping := by
    simp [isJTrigV0, hj]
  have hyb : yBTrigV0 s (2, 0) = s.yBeforeJump := by
    simp [yBTrigV0, hj]
  have hwall : wallResolveV0 s.x 0 ⟨s.x + 2/25, 0, 4, 0⟩ =
      ⟨s.x + 2/25, 0, 4, 0⟩ := by
    have hnov : wallOverlapV0 ⟨s.x + 2/25, 0, 4, 0⟩ = false := by
      have h1 : ¬ (s.x + 2/25 - 3/10 < (103 : ℚ)/10) := by
        push_neg
        linarith
      simp [wallOverlapV0, h1]
    unfold wallResolveV0
    simp only [hnov, Bool.false_eq_true, if_false]
  have hland : landingHitV0 s.isJumping (physV0 s (2, 0)) = s.isJumping := by
    rw [hphys, hwall]
    norm_num [landingHitV0, onGroundV0, rabs]
  ext
  · rw [stepV0_state_x, hphys, hwall]
  · rw [stepV0_state_y, hphys, hwall]
  · rw [stepV0_state_vx, hphys, hwall]
  · rw [stepV0_state_vy, hphys, hwall]
  · rw [stepV0_state_cooldown]
    rw [show ((2 : ℤ), (0 : ℤ)).2 = (0 : ℤ) from rfl, hj]
    simp
  · rw [stepV0_state_prevJump]
  · rw [stepV0_state_isJumping, hisj, hland]
    cases s.isJumping <;> simp
  · rw [stepV0_state_yBeforeJump, hyb]
  · rw [stepV0_state_steps]
  · rw [stepV0_state_rngSeed]

/-! ### C3: the walk-right-only scenario is blocked by the wall -/

theorem runRightV0_inv (n : ℕ) :
    (runRightV0 n).y = 0 ∧ (runRightV0 n).vy = 0 ∧
      (runRightV0 n).x ≤ 47/5 := by
  induction n with
  | zero =>
    refine ⟨rfl, rfl, ?_⟩
    norm_num [runRightV0, resetV0, resetStateV0, initV0]
  | succ k ih =>
    obtain ⟨hy, hvy, hx⟩ := ih
    rw [runRightV0, walkLeftStepV0 _ hy hvy hx]
    refine ⟨rfl, rfl, ?_⟩
    dsimp only
    split
    · norm_num
    · next h =>
      push_neg at h
      linarith

theorem runRightV0_far_from_flag (n : ℕ) :
    1/2 ≤ rabs ((runRightV0 n).x - 20) := by
  have hx := (runRightV0_inv n).2.2
  rw [rabs, if_pos (by linarith)]
  linarith

/-- C3 counterexample: under the pure walk-right policy from reset, no step
ever reports termination and the position condition `|x - 20| < 0.5` never
holds: the wall at x = 10 blocks the ground route (y = 0 is outside the bug
gap band), so the flag is never reached. -/
theorem C3_counterexample :
    (¬ ∃ n : ℕ, (stepV0 (runRightV0 n) (2, 0)).terminated = true) ∧
    (¬ ∃ n : ℕ, rabs ((runRightV0 n).x - 20) < 1/2) := by
  constructor
  · rintro ⟨n, hn⟩
    rw [stepV0_terminated,
      show (stepV0 (runRightV0 n) (2, 0)).state = runRightV0 (n + 1)
        from rfl] at hn
    simp only [reachedFlag, Bool.and_eq_true, decide_eq_true_eq] at hn
    exact absurd hn.1 (not_lt.mpr (runRightV0_far_from_flag (n + 1)))
  · rintro ⟨n, hn⟩
    exact absurd hn (not_lt.mpr (runRightV0_far_from_flag n))

/-- C3 (amended): reset of preset v0 yields state `(1, 0, 0, 0)`, but the
pure `(movement = 2, jump = 0)` policy never brings the player near the
flag: the wall blocks it at `x = 9.4` (pre-step `y = 0` lies outside the bug
gap), `x` stays at most `47/5` with `y = 0` forever, and every step returns
`terminated = false`. -/
theorem C3_walk_right_blocked :
    ((resetV0 none).x = 1 ∧ (resetV0 none).y = 0 ∧ (resetV0 none).vx = 0 ∧
      (resetV0 none).vy = 0) ∧
    (∀ n : ℕ, (runRightV0 n).x ≤ 47/5 ∧ (runRightV0 n).y = 0) ∧
    (∀ n : ℕ, (stepV0 (runRightV0 n) (2, 0)).terminated = false) := by
  refine ⟨⟨rfl, rfl, rfl, rfl⟩, ?_, ?_⟩
  · intro n
    exact ⟨(runRightV0_inv n).2.2, (runRightV0_inv n).1⟩
  · intro n
    rw [stepV0_terminated,
      show (stepV0 (runRightV0 n) (2, 0)).state = runRightV0 (n + 1)
        from rfl]
    have h := not_lt.mpr (runRightV0_far_from_flag (n + 1))
    cases hrf : reachedFlag (runRightV0 (n + 1)).x (runRightV0 (n + 1)).y
    · rfl
    · simp only [reachedFlag, Bool.and_eq_true, decide_eq_true_eq] at hrf
      exact absurd hrf.1 h

/-! ### C4: reaching the flag exactly at the step limit -/

theorem idlePhaseC4 : ∀ n, n ≤ 763 → runC4 n = idleAtV0 n := by
  intro n
  induction n with
  | zero => intro _; rfl
  | succ k ih =>
    intro h
    have hs : runC4 (k + 1) = (stepV0 (runC4 k) (actC4 k)).state := rfl
    have ha : actC4 k = (0, 0) := by
      unfold actC4
      rw [if_pos (by omega)]
    rw [hs, ih (by omega), ha, idleFixV0]

theorem walkPhaseC4 : ∀ k, 1 ≤ k → k ≤ 105 →
    runC4 (763 + k) =
    { x := 1 + 2 * (k : ℚ)/25, y := 0, vx := 4, vy := 0,
      cooldown := 0, prevJump := 0, isJumping := false, yBeforeJump := 0,
      steps := 763 + k, rngSeed := none } := by
  intro k h1
  induction k, h1 using Nat.le_induction with
  | base =>
    intro _
    have hs : runC4 764 = (stepV0 (runC4 763) (actC4 763)).state := rfl
    rw [hs, idlePhaseC4 763 (by norm_num), show actC4 763 = (2, 0) from rfl,
      walkLeftStepV0 _ rfl rfl (by norm_num [idleAtV0])]
    norm_num [idleAtV0, cooldownTick, StateV0.mk.injEq]
  | succ n hn ih =>
    intro h2
    have hih := ih (by omega)
    have hs : runC4 (763 + (n + 1)) =
        (stepV0 (runC4 (763 + n)) (actC4 (763 + n))).state := rfl
    have ha : actC4 (763 + n) = (2, 0) := by
      unfold actC4
      rw [if_neg (by omega), if_pos (by omega)]
    have hcast : (n : ℚ) ≤ 104 := by
      have : n ≤ 104 := by omega
      exact_mod_cast this
    have hlt : ¬ ((233 : ℚ)/25 < 1 + 2 * (n : ℚ)/25) := by
      push_neg
      linarith
    rw [hs, hih, ha, walkLeftStepV0 _ rfl rfl (by dsimp only; linarith)]
    simp only [hlt, if_false, cooldownTick, StateV0.mk.injEq]
    push_cast
    norm_num
    constructor
    · ring
    · omega

theorem arcC4_868 : runC4 868 =
    { x := 47/5, y := 0, vx := 4, vy := 0,
      cooldown := 0, prevJump := 0, isJumping := false, yBeforeJump := 0,
      steps := 868, rngSeed := none } := by
  have h := walkPhaseC4 105 (by norm_num) (by norm_num)
  rw [show (763 + 105 : ℕ) = 868 from rfl] at h
  rw [h]
  norm_num [StateV0.mk.injEq]

theorem arcC4_869 : runC4 869 =
    { x := 47/5, y := 57/250, vx := 0, vy := 57/5,
      cooldown := 60, prevJump := 1, isJumping := true,
      yBeforeJump := 0, steps := 869, rngSeed := none } := by
  have hs : runC4 869 = (stepV0 (runC4 868) (actC4 868)).state := rfl
  rw [hs, arcC4_868, show actC4 868 = (2, 1) from rfl]
  norm_num [stepV0, rewardV0, doJumpV0, onGroundV0, cooldownTick, vxCmd,
    groundClamp, platformStage, firstHit, platHit, platTop, wallResolveV0,
    wallOverlapV0, inGapV0, landingHitV0, landingAdj, reachedFlag, rabs,
    platformsV0, StateV0.mk.injEq]

theorem arcC4_870 : runC4 870 =
    { x := 47/5, y := 111/250, vx := 0, vy := 54/5,
      cooldown := 59, prevJump := 0, isJumping := true,
      yBeforeJump := 0, steps := 870, rngSeed := none } := by
  have hs : runC4 870 = (stepV0 (runC4 869) (actC4 869)).state := rfl
  rw [hs, arcC4_869, show actC4 869 = (2, 0) from rfl]
  norm_num [stepV0, rewardV0, doJumpV0, onGroundV0, cooldownTick, vxCmd,
    groundClamp, platformStage, firstHit, platHit, platTop, wallResolveV0,
    wallOverlapV0, inGapV0, landingHitV0, landingAdj, reachedFlag, rabs,
    platformsV0, StateV0.mk.injEq]

theorem arcC4_871 : runC4 871 =
    { x := 47/5, y := 81/125, vx := 0, vy := 51/5,
      cooldown := 58, prevJump := 0, isJumping := true,
      yBeforeJump := 0, steps := 871, rngSeed := none } := by
  have hs : runC4 871 = (stepV0 (runC4 870) (actC4 870)).state := rfl
  rw [hs, arcC4_870, show actC4 870 = (2, 0) from rfl]
  norm_num [stepV0, rewardV0, doJumpV0, onGroundV0, cooldownTick, vxCmd,
    groundClamp, platformStage, firstHit, platHit, platTop, wallResolveV0,
    wallOverlapV0, inGapV0, landingHitV0, landingAdj, reachedFlag, rabs,
    platformsV0, StateV0.mk.injEq]

theorem arcC4_872 : runC4 872 =
    { x := 47/5, y := 21/25, vx := 0, vy := 48/5,
      cooldown := 57, prevJump := 0, isJumping := true,
      yBeforeJump := 0, steps := 872, rngSeed := none } := by
  have hs : runC4 872 = (stepV0 (runC4 871) (actC4 871)).state := rfl
  rw [hs, arcC4_871, show actC4 871 = (2, 0) from rfl]
  norm_num [stepV0, rewardV0, doJumpV0, onGroundV0, cooldownTick, vxCmd,
    groundClamp, platformStage, firstHit, platHit, platTop, wallResolveV0,
    wallOverlapV0, inGapV0, landingHitV0, landingAdj, reachedFlag, rabs,
    platformsV0, StateV0.mk.injEq]

theorem arcC4_873 : runC4 873 =
    { x := 47/5, y := 51/50, vx := 0, vy := 9,
      cooldown := 56, prevJump := 0, isJumping := true,
      yBeforeJump := 0, steps := 873, rngSeed := none } := by
  have hs : runC4 873 = (stepV0 (runC4 872) (actC4 872)).state := rfl
  rw [hs, arcC4_872, show actC4 872 = (2, 0) from rfl]
  norm_num [stepV0, rewardV0, doJumpV0, onGroundV0, cooldownTick, vxCmd,
    groundClamp, platformStage, firstHit, platHit, platTop, wallResolveV0,
    wallOverlapV0, inGapV0, landingHitV0, landingAdj, reachedFlag, rabs,
    platformsV0, StateV0.mk.injEq]

theorem arcC4_874 : runC4 874 =
    { x := 237/25, y := 297/250, vx := 4, vy := 42/5,
      cooldown := 55, prevJump := 0, isJumping := true,
      yBeforeJump := 0, steps := 874, rngSeed := none } := by
  have hs : runC4 874 = (stepV0 (runC4 873) (actC4 873)).state := rfl
  rw [hs, arcC4_873, show actC4 873 = (2, 0) from rfl]
  norm_num [stepV0, rewardV0, doJumpV0, onGroundV0, cooldownTick, vxCmd,
    groundClamp, platformStage, firstHit, platHit, platTop, wallResolveV0,
    wallOverlapV0, inGapV0, landingHitV0, landingAdj, reachedFlag, rabs,
    platformsV0, StateV0.mk.injEq]

theorem arcC4_875 : runC4 875 =
    { x := 239/25, y := 168/125, vx := 4, vy := 39/5,
      cooldown := 54, prevJump := 0, isJumping := true,
      yBeforeJump := 0, steps := 875, rngSeed := none } := by
  have hs : runC4 875 = (stepV0 (runC4 874) (actC4 874)).state := rfl
  rw [hs, arcC4_874, show actC4 874 = (2, 0) from rfl]
  norm_num [stepV0, rewardV0, doJumpV0, onGroundV0, cooldownTick, vxCmd,
    groundClamp, platformStage, firstHit, platHit, platTop, wallResolveV0,
    wallOverlapV0, inGapV0, landingHitV0, landingAdj, reachedFlag, rabs,
    platformsV0, StateV0.mk.injEq]

theorem arcC4_876 : runC4 876 =
    { x := 241/25, y := 186/125, vx := 4, vy := 36/5,
      cooldown := 53, prevJump := 0, isJumping := true,
      yBeforeJump := 0, steps := 876, rngSeed := none } := by
  have hs : runC4 876 = (stepV0 (runC4 875) (actC4 875)).state := rfl
  rw [hs, arcC4_875, show actC4 875 = (2, 0) from rfl]
  norm_num [stepV0, rewardV0, doJumpV0, onGroundV0, cooldownTick, vxCmd,
    groundClamp, platformStage, firstHit, platHit, platTop, wallResolveV0,
    wallOverlapV0, inGapV0, landingHitV0, landingAdj, reachedFlag, rabs,
    platformsV0, StateV0.mk.injEq]

theorem arcC4_877 : runC4 877 =
    { x := 243/25, y := 81/50, vx := 4, vy := 33/5,
      cooldown := 52, prevJump := 0, isJumping := true,
      yBeforeJump := 0, steps := 877, rngSeed := none } := by
  have hs : runC4 877 = (stepV0 (runC4 876) (actC4 876)).state := rfl
  rw [hs, arcC4_876, show actC4 876 = (2, 0) from rfl]
  norm_num [stepV0, rewardV0, doJumpV0, onGroundV0, cooldownTick, vxCmd,
    groundClamp, platformStage, firstHit, platHit, platTop, wallResolveV0,
    wallOverlapV0, inGapV0, landingHitV0, landingAdj, reachedFlag, rabs,
    platformsV0, StateV0.mk.injEq]

theorem arcC4_878 : runC4 878 =
    { x := 49/5, y := 87/50, vx := 4, vy := 6,
      cooldown := 51, prevJump := 0, isJumping := true,
      yBeforeJump := 0, steps := 878, rngSeed := none } := by
  have hs : runC4 878 = (stepV0 (runC4 877) (actC4 877)).state := rfl
  rw [hs, arcC4_877, show actC4 877 = (2, 0) from rfl]
  norm_num [stepV0, rewardV0, doJumpV0, onGroundV0, cooldownTick, vxCmd,
    groundClamp, platformStage, firstHit, platHit, platTop, wallResolveV0,
    wallOverlapV0, inGapV0, landingHitV0, landingAdj, reachedFlag, rabs,
    platformsV0, StateV0.mk.injEq]

theorem arcC4_879 : runC4 879 =
    { x := 247/25, y := 231/125, vx := 4, vy := 27/5,
      cooldown := 50, prevJump := 0, isJumping := true,
      yBeforeJump := 0, steps := 879, rngSeed := none } := by
  have hs : runC4 879 = (stepV0 (runC4 878) (actC4 878)).state := rfl
  rw [hs, arcC4_878, show actC4 878 = (2, 0) from rfl]
  norm_num [stepV0, rewardV0, doJumpV0, onGroundV0, cooldownTick, vxCmd,
    groundClamp, platformStage, firstHit, platHit, platTop, wallResolveV0,
    wallOverlapV0, inGapV0, landingHitV0, landingAdj, reachedFlag, rabs,
    platformsV0, StateV0.mk.injEq]

theorem arcC4_880 : runC4 880 =
    { x := 249/25, y := 243/125, vx := 4, vy := 24/5,
      cooldown := 49, prevJump := 0, isJumping := true,
      yBeforeJump := 0, steps := 880, rngSeed := none } := by
  have hs : runC4 880 = (stepV0 (runC4 879) (actC4 879)).state := rfl
  rw [hs, arcC4_879, show actC4 879 = (2, 0) from rfl]
  norm_num [stepV0, rewardV0, doJumpV0, onGroundV0, cooldownTick, vxCmd,
    groundClamp, platformStage, firstHit, platHit, platTop, wallResolveV0,
    wallOverlapV0, inGapV0, landingHitV0, landingAdj, reachedFlag, rabs,
    platformsV0, StateV0.mk.injEq]

theorem arcC4_881 : runC4 881 =
    { x := 251/25, y := 507/250, vx := 4, vy := 21/5,
      cooldown := 48, prevJump := 0, isJumping := true,
      yBeforeJump := 0, steps := 881, rngSeed := none } := by
  have hs : runC4 881 = (stepV0 (runC4 880) (actC4 880)).state := rfl
  rw [hs, arcC4_880, show actC4 880 = (2, 0) from rfl]
  norm_num [stepV0, rewardV0, doJumpV0, onGroundV0, cooldownTick, vxCmd,
    groundClamp, platformStage, firstHit, platHit, platTop, wallResolveV0,
    wallOverlapV0, inGapV0, landingHitV0, landingAdj, reachedFlag, rabs,
    platformsV0, StateV0.mk.injEq]

theorem arcC4_882 : runC4 882 =
    { x := 253/25, y := 21/10, vx := 4, vy := 18/5,
      cooldown := 47, prevJump := 0, isJumping := true,
      yBeforeJump := 0, steps := 882, rngSeed := none } := by
  have hs : runC4 882 = (stepV0 (runC4 881) (actC4 881)).state := rfl
  rw [hs, arcC4_881, show actC4 881 = (2, 0) from rfl]
  norm_num [stepV0, rewardV0, doJumpV0, onGroundV0, cooldownTick, vxCmd,
    groundClamp, platformStage, firstHit, platHit, platTop, wallResolveV0,
    wallOverlapV0, inGapV0, landingHitV0, landingAdj, reachedFlag, rabs,
    platformsV0, StateV0.mk.injEq]

theorem arcC4_883 : runC4 883 =
    { x := 51/5, y := 54/25, vx := 4, vy := 3,
      cooldown := 46, prevJump := 0, isJumping := true,
      yBeforeJump := 0, steps := 883, rngSeed := none } := by
  have hs : runC4 883 = (stepV0 (runC4 882) (actC4 882)).state := rfl
  rw [hs, arcC4_882, show actC4 882 = (2, 0) from rfl]
  norm_num [stepV0, rewardV0, doJumpV0, onGroundV0, cooldownTick, vxCmd,
    groundClamp, platformStage, firstHit, platHit, platTop, wallResolveV0,
    wallOverlapV0, inGapV0, landingHitV0, landingAdj, reachedFlag, rabs,
    platformsV0, StateV0.mk.injEq]

theorem arcC4_884 : runC4 884 =
    { x := 257/25, y := 276/125, vx := 4, vy := 12/5,
      cooldown := 45, prevJump := 0, isJumping := true,
      yBeforeJump := 0, steps := 884, rngSeed := none } := by
  have hs : runC4 884 = (stepV0 (runC4 883) (actC4 883)).state := rfl
  rw [hs, arcC4_883, show actC4 883 = (2, 0) from rfl]
  norm_num [stepV0, rewardV0, doJumpV0, onGroundV0, cooldownTick, vxCmd,
    groundClamp, platformStage, firstHit, platHit, platTop, wallResolveV0,
    wallOverlapV0, inGapV0, landingHitV0, landingAdj, reachedFlag, rabs,
    platformsV0, StateV0.mk.injEq]

theorem arcC4_885 : runC4 885 =
    { x := 259/25, y := 561/250, vx := 4, vy := 9/5,
      cooldown := 44, prevJump := 0, isJumping := true,
      yBeforeJump := 0, steps := 885, rngSeed := none } := by
  have hs : runC4 885 = (stepV0 (runC4 884) (actC4 884)).state := rfl
  rw [hs, arcC4_884, show actC4 884 = (2, 0) from rfl]
  norm_num [stepV0, rewardV0, doJumpV0, onGroundV0, cooldownTick, vxCmd,
    groundClamp, platformStage, firstHit, platHit, platTop, wallResolveV0,
    wallOverlapV0, inGapV0, landingHitV0, landingAdj, reachedFlag, rabs,
    platformsV0, StateV0.mk.injEq]

theorem arcC4_886 : runC4 886 =
    { x := 261/25, y := 567/250, vx := 4, vy := 6/5,
      cooldown := 43, prevJump := 0, isJumping := true,
      yBeforeJump := 0, steps := 886, rngSeed := none } := by
  have hs : runC4 886 = (stepV0 (runC4 885) (actC4 885)).state := rfl
  rw [hs, arcC4_885, show actC4 885 = (2, 0) from rfl]
  norm_num [stepV0, rewardV0, doJumpV0, onGroundV0, cooldownTick, vxCmd,
    groundClamp, platformStage, firstHit, platHit, platTop, wallResolveV0,
    wallOverlapV0, inGapV0, landingHitV0, landingAdj, reachedFlag, rabs,
    platformsV0, StateV0.mk.injEq]

theorem arcC4_887 : runC4 887 =
    { x := 263/25, y := 57/25, vx := 4, vy := 3/5,
      cooldown := 42, prevJump := 0, isJumping := true,
      yBeforeJump := 0, steps := 887, rngSeed := none } := by
  have hs : runC4 887 = (stepV0 (runC4 886) (actC4 886)).state := rfl
  rw [hs, arcC4_886, show actC4 886 = (2, 0) from rfl]
  norm_num [stepV0, rewardV0, doJumpV0, onGroundV0, cooldownTick, vxCmd,
    groundClamp, platformStage, firstHit, platHit, platTop, wallResolveV0,
    wallOverlapV0, inGapV0, landingHitV0, landingAdj, reachedFlag, rabs,
    platformsV0, StateV0.mk.injEq]

theorem arcC4_888 : runC4 888 =
    { x := 53/5, y := 57/25, vx := 4, vy := 0,
      cooldown := 41, prevJump := 0, isJumping := true,
      yBeforeJump := 0, steps := 888, rngSeed := none } := by
  have hs : runC4 888 = (stepV0 (runC4 887) (actC4 887)).state := rfl
  rw [hs, arcC4_887, show actC4 887 = (2, 0) from rfl]
  norm_num [stepV0, rewardV0, doJumpV0, onGroundV0, cooldownTick, vxCmd,
    groundClamp, platformStage, firstHit, platHit, platTop, wallResolveV0,
    wallOverlapV0, inGapV0, landingHitV0, landingAdj, reachedFlag, rabs,
    platformsV0, StateV0.mk.injEq]

theorem arcC4_889 : runC4 889 =
    { x := 267/25, y := 567/250, vx := 4, vy := -(3/5),
      cooldown := 40, prevJump := 0, isJumping := true,
      yBeforeJump := 0, steps := 889, rngSeed := none } := by
  have hs : runC4 889 = (stepV0 (runC4 888) (actC4 888)).state := rfl
  rw [hs, arcC4_888, show actC4 888 = (2, 0) from rfl]
  norm_num [stepV0, rewardV0, doJumpV0, onGroundV0, cooldownTick, vxCmd,
    groundClamp, platformStage, firstHit, platHit, platTop, wallResolveV0,
    wallOverlapV0, inGapV0, landingHitV0, landingAdj, reachedFlag, rabs,
    platformsV0, StateV0.mk.injEq]

theorem arcC4_890 : runC4 890 =
    { x := 269/25, y := 561/250, vx := 4, vy := -(6/5),
      cooldown := 39, prevJump := 0, isJumping := true,
      yBeforeJump := 0, steps := 890, rngSeed := none } := by
  have hs : runC4 890 = (stepV0 (runC4 889) (actC4 889)).state := rfl
  rw [hs, arcC4_889, show actC4 889 = (2, 0) from rfl]
  norm_num [stepV0, rewardV0, doJumpV0, onGroundV0, cooldownTick, vxCmd,
    groundClamp, platformStage, firstHit, platHit, platTop, wallResolveV0,
    wallOverlapV0, inGapV0, landingHitV0, landingAdj, reachedFlag, rabs,
    platformsV0, StateV0.mk.injEq]

theorem arcC4_891 : runC4 891 =
    { x := 271/25, y := 276/125, vx := 4, vy := -(9/5),
      cooldown := 38, prevJump := 0, isJumping := true,
      yBeforeJump := 0, steps := 891, rngSeed := none } := by
  have hs : runC4 891 = (stepV0 (runC4 890) (actC4 890)).state := rfl
  rw [hs, arcC4_890, show actC4 890 = (2, 0) from rfl]
  norm_num [stepV0, rewardV0, doJumpV0, onGroundV0, cooldownTick, vxCmd,
    groundClamp, platformStage, firstHit, platHit, platTop, wallResolveV0,
    wallOverlapV0, inGapV0, landingHitV0, landingAdj, reachedFlag, rabs,
    platformsV0, StateV0.mk.injEq]

theorem arcC4_892 : runC4 892 =
    { x := 273/25, y := 54/25, vx := 4, vy := -(12/5),
      cooldown := 37, prevJump := 0, isJumping := true,
      yBeforeJump := 0, steps := 892, rngSeed := none } := by
  have hs : runC4 892 = (stepV0 (runC4 891) (actC4 891)).state := rfl
  rw [hs, arcC4_891, show actC4 891 = (2, 0) from rfl]
  norm_num [stepV0, rewardV0, doJumpV0, onGroundV0, cooldownTick, vxCmd,
    groundClamp, platformStage, firstHit, platHit, platTop, wallResolveV0,
    wallOverlapV0, inGapV0, landingHitV0, landingAdj, reachedFlag, rabs,
    platformsV0, StateV0.mk.injEq]

theorem arcC4_893 : runC4 893 =
    { x := 11, y := 21/10, vx := 4, vy := -(3),
      cooldown := 36, prevJump := 0, isJumping := true,
      yBeforeJump := 0, steps := 893, rngSeed := none } := by
  have hs : runC4 893 = (stepV0 (runC4 892) (actC4 892)).state := rfl
  rw [hs, arcC4_892, show actC4 892 = (2, 0) from rfl]
  norm_num [stepV0, rewardV0, doJumpV0, onGroundV0, cooldownTick, vxCmd,
    groundClamp, platformStage, firstHit, platHit, platTop, wallResolveV0,
    wallOverlapV0, inGapV0, landingHitV0, landingAdj, reachedFlag, rabs,
    platformsV0, StateV0.mk.injEq]

theorem arcC4_894 : runC4 894 =
    { x := 277/25, y := 507/250, vx := 4, vy := -(18/5),
      cooldown := 35, prevJump := 0, isJumping := true,
      yBeforeJump := 0, steps := 894, rngSeed := none } := by
  have hs : runC4 894 = (stepV0 (runC4 893) (actC4 893)).state := rfl
  rw [hs, arcC4_893, show actC4 893 = (2, 0) from rfl]
  norm_num [stepV0, rewardV0, doJumpV0, onGroundV0, cooldownTick, vxCmd,
    groundClamp, platformStage, firstHit, platHit, platTop, wallResolveV0,
    wallOverlapV0, inGapV0, landingHitV0, landingAdj, reachedFlag, rabs,
    platformsV0, StateV0.mk.injEq]

theorem arcC4_895 : runC4 895 =
    { x := 279/25, y := 243/125, vx := 4, vy := -(21/5),
      cooldown := 34, prevJump := 0, isJumping := true,
      yBeforeJump := 0, steps := 895, rngSeed := none } := by
  have hs : runC4 895 = (stepV0 (runC4 894) (actC4 894)).state := rfl
  rw [hs, arcC4_894, show actC4 894 = (2, 0) from rfl]
  norm_num [stepV0, rewardV0, doJumpV0, onGroundV0, cooldownTick, vxCmd,
    groundClamp, platformStage, firstHit, platHit, platTop, wallResolveV0,
    wallOverlapV0, inGapV0, landingHitV0, landingAdj, reachedFlag, rabs,
    platformsV0, StateV0.mk.injEq]

theorem arcC4_896 : runC4 896 =
    { x := 281/25, y := 231/125, vx := 4, vy := -(24/5),
      cooldown := 33, prevJump := 0, isJumping := true,
      yBeforeJump := 0, steps := 896, rngSeed := none } := by
  have hs : runC4 896 = (stepV0 (runC4 895) (actC4 895)).state := rfl
  rw [hs, arcC4_895, show actC4 895 = (2, 0) from rfl]
  norm_num [stepV0, rewardV0, doJumpV0, onGroundV0, cooldownTick, vxCmd,
    groundClamp, platformStage, firstHit, platHit, platTop, wallResolveV0,
    wallOverlapV0, inGapV0, landingHitV0, landingAdj, reachedFlag, rabs,
    platformsV0, StateV0.mk.injEq]

theorem arcC4_897 : runC4 897 =
    { x := 283/25, y := 87/50, vx := 4, vy := -(27/5),
      cooldown := 32, prevJump := 0, isJumping := true,
      yBeforeJump := 0, steps := 897, rngSeed := none } := by
  have hs : runC4 897 = (stepV0 (runC4 896) (actC4 896)).state := rfl
  rw [hs, arcC4_896, show actC4 896 = (2, 0) from rfl]
  norm_num [stepV0, rewardV0, doJumpV0, onGroundV0, cooldownTick, vxCmd,
    groundClamp, platformStage, firstHit, platHit, platTop, wallResolveV0,
    wallOverlapV0, inGapV0, landingHitV0, landingAdj, reachedFlag, rabs,
    platformsV0, StateV0.mk.injEq]

theorem arcC4_898 : runC4 898 =
    { x := 57/5, y := 81/50, vx := 4, vy := -(6),
      cooldown := 31, prevJump := 0, isJumping := true,
      yBeforeJump := 0, steps := 898, rngSeed := none } := by
  have hs : runC4 898 = (stepV0 (runC4 897) (actC4 897)).state := rfl
  rw [hs, arcC4_897, show actC4 897 = (2, 0) from rfl]
  norm_num [stepV0, rewardV0, doJumpV0, onGroundV0, cooldownTick, vxCmd,
    groundClamp, platformStage, firstHit, platHit, platTop, wallResolveV0,
    wallOverlapV0, inGapV0, landingHitV0, landingAdj, reachedFlag, rabs,
    platformsV0, StateV0.mk.injEq]

theorem arcC4_899 : runC4 899 =
    { x := 287/25, y := 186/125, vx := 4, vy := -(33/5),
      cooldown := 30, prevJump := 0, isJumping := true,
      yBeforeJump := 0, steps := 899, rngSeed := none } := by
  have hs : runC4 899 = (stepV0 (runC4 898) (actC4 898)).state := rfl
  rw [hs, arcC4_898, show actC4 898 = (2, 0) from rfl]
  norm_num [stepV0, rewardV0, doJumpV0, onGroundV0, cooldownTick, vxCmd,
    groundClamp, platformStage, firstHit, platHit, platTop, wallResolveV0,
    wallOverlapV0, inGapV0, landingHitV0, landingAdj, reachedFlag, rabs,
    platformsV0, StateV0.mk.injEq]

theorem arcC4_900 : runC4 900 =
    { x := 289/25, y := 168/125, vx := 4, vy := -(36/5),
      cooldown := 29, prevJump := 0, isJumping := true,
      yBeforeJump := 0, steps := 900, rngSeed := none } := by
  have hs : runC4 900 = (stepV0 (runC4 899) (actC4 899)).state := rfl
  rw [hs, arcC4_899, show actC4 899 = (2, 0) from rfl]
  norm_num [stepV0, rewardV0, doJumpV0, onGroundV0, cooldownTick, vxCmd,
    groundClamp, platformStage, firstHit, platHit, platTop, wallResolveV0,
    wallOverlapV0, inGapV0, landingHitV0, landingAdj, reachedFlag, rabs,
    platformsV0, StateV0.mk.injEq]

theorem arcC4_901 : runC4 901 =
    { x := 291/25, y := 297/250, vx := 4, vy := -(39/5),
      cooldown := 28, prevJump := 0, isJumping := true,
      yBeforeJump := 0, steps := 901, rngSeed := none } := by
  have hs : runC4 901 = (stepV0 (runC4 900) (actC4 900)).state := rfl
  rw [hs, arcC4_900, show actC4 900 = (2, 0) from rfl]
  norm_num [stepV0, rewardV0, doJumpV0, onGroundV0, cooldownTick, vxCmd,
    groundClamp, platformStage, firstHit, platHit, platTop, wallResolveV0,
    wallOverlapV0, inGapV0, landingHitV0, landingAdj, reachedFlag, rabs,
    platformsV0, StateV0.mk.injEq]

theorem arcC4_902 : runC4 902 =
    { x := 293/25, y := 51/50, vx := 4, vy := -(42/5),
      cooldown := 27, prevJump := 0, isJumping := true,
      yBeforeJump := 0, steps := 902, rngSeed := none } := by
  have hs : runC4 902 = (stepV0 (runC4 901) (actC4 901)).state := rfl
  rw [hs, arcC4_901, show actC4 901 = (2, 0) from rfl]
  norm_num [stepV0, rewardV0, doJumpV0, onGroundV0, cooldownTick, vxCmd,
    groundClamp, platformStage, firstHit, platHit, platTop, wallResolveV0,
    wallOverlapV0, inGapV0, landingHitV0, landingAdj, reachedFlag, rabs,
    platformsV0, StateV0.mk.injEq]

theorem arcC4_903 : runC4 903 =
    { x := 59/5, y := 21/25, vx := 4, vy := -(9),
      cooldown := 26, prevJump := 0, isJumping := true,
      yBeforeJump := 0, steps := 903, rngSeed := none } := by
  have hs : runC4 903 = (stepV0 (runC4 902) (actC4 902)).state := rfl
  rw [hs, arcC4_902, show actC4 902 = (2, 0) from rfl]
  norm_num [stepV0, rewardV0, doJumpV0, onGroundV0, cooldownTick, vxCmd,
    groundClamp, platformStage, firstHit, platHit, platTop, wallResolveV0,
    wallOverlapV0, inGapV0, landingHitV0, landingAdj, reachedFlag, rabs,
    platformsV0, StateV0.mk.injEq]

theorem arcC4_904 : runC4 904 =
    { x := 297/25, y := 81/125, vx := 4, vy := -(48/5),
      cooldown := 25, prevJump := 0, isJumping := true,
      yBeforeJump := 0, steps := 904, rngSeed := none } := by
  have hs : runC4 904 = (stepV0 (runC4 903) (actC4 903)).state := rfl
  rw [hs, arcC4_903, show actC4 903 = (2, 0) from rfl]
  norm_num [stepV0, rewardV0, doJumpV0, onGroundV0, cooldownTick, vxCmd,
    groundClamp, platformStage, firstHit, platHit, platTop, wallResolveV0,
    wallOverlapV0, inGapV0, landingHitV0, landingAdj, reachedFlag, rabs,
    platformsV0, StateV0.mk.injEq]

theorem arcC4_905 : runC4 905 =
    { x := 299/25, y := 111/250, vx := 4, vy := -(51/5),
      cooldown := 24, prevJump := 0, isJumping := true,
      yBeforeJump := 0, steps := 905, rngSeed := none } := by
  have hs : runC4 905 = (stepV0 (runC4 904) (actC4 904)).state := rfl
  rw [hs, arcC4_904, show actC4 904 = (2, 0) from rfl]
  norm_num [stepV0, rewardV0, doJumpV0, onGroundV0, cooldownTick, vxCmd,
    groundClamp, platformStage, firstHit, platHit, platTop, wallResolveV0,
    wallOverlapV0, inGapV0, landingHitV0, landingAdj, reachedFlag, rabs,
    platformsV0, StateV0.mk.injEq]

theorem arcC4_906 : runC4 906 =
    { x := 301/25, y := 57/250, vx := 4, vy := -(54/5),
      cooldown := 23, prevJump := 0, isJumping := true,
      yBeforeJump := 0, steps := 906, rngSeed := none } := by
  have hs : runC4 906 = (stepV0 (runC4 905) (actC4 905)).state := rfl
  rw [hs, arcC4_905, show actC4 905 = (2, 0) from rfl]
  norm_num [stepV0, rewardV0, doJumpV0, onGroundV0, cooldownTick, vxCmd,
    groundClamp, platformStage, firstHit, platHit, platTop, wallResolveV0,
    wallOverlapV0, inGapV0, landingHitV0, landingAdj, reachedFlag, rabs,
    platformsV0, StateV0.mk.injEq]

theorem arcC4_907 : runC4 907 =
    { x := 303/25, y := 0, vx := 4, vy := -(57/5),
      cooldown := 22, prevJump := 0, isJumping := true,
      yBeforeJump := 0, steps := 907, rngSeed := none } := by
  have hs : runC4 907 = (stepV0 (runC4 906) (actC4 906)).state := rfl
  rw [hs, arcC4_906, show actC4 906 = (2, 0) from rfl]
  norm_num [stepV0, rewardV0, doJumpV0, onGroundV0, cooldownTick, vxCmd,
    groundClamp, platformStage, firstHit, platHit, platTop, wallResolveV0,
    wallOverlapV0, inGapV0, landingHitV0, landingAdj, reachedFlag, rabs,
    platformsV0, StateV0.mk.injEq]

theorem arcC4_908 : runC4 908 =
    { x := 61/5, y := 0, vx := 4, vy := 0,
      cooldown := 21, prevJump := 0, isJumping := false,
      yBeforeJump := 0, steps := 908, rngSeed := none } := by
  have hs : runC4 908 = (stepV0 (runC4 907) (actC4 907)).state := rfl
  rw [hs, arcC4_907, show actC4 907 = (2, 0) from rfl]
  norm_num [stepV0, rewardV0, doJumpV0, onGroundV0, cooldownTick, vxCmd,
    groundClamp, platformStage, firstHit, platHit, platTop, wallResolveV0,
    wallOverlapV0, inGapV0, landingHitV0, landingAdj, reachedFlag, rabs,
    platformsV0, StateV0.mk.injEq]

theorem walk2PhaseC4 : ∀ k, k ≤ 92 →
    runC4 (908 + k) =
    { x := 61/5 + 2 * (k : ℚ)/25, y := 0, vx := 4, vy := 0,
      cooldown := 21 - k, prevJump := 0, isJumping := false,
      yBeforeJump := 0, steps := 908 + k, rngSeed := none } := by
  intro k
  induction k with
  | zero =>
    intro _
    rw [show (908 + 0 : ℕ) = 908 from rfl, arcC4_908]
    norm_num [StateV0.mk.injEq]
  | succ n ih =>
    intro h
    have hih := ih (by omega)
    have hs : runC4 (908 + (n + 1)) =
        (stepV0 (runC4 (908 + n)) (actC4 (908 + n))).state := rfl
    have ha : actC4 (908 + n) = (2, 0) := by
      unfold actC4
      rw [if_neg (by omega), if_neg (by omega), if_neg (by omega)]
    have hn0 : (0 : ℚ) ≤ (n : ℚ) := Nat.cast_nonneg n
    rw [hs, hih, ha, walkRightStepV0 _ rfl rfl (by dsimp only; linarith)]
    dsimp only
    refine StateV0.ext ?_ rfl rfl rfl ?_ rfl rfl rfl rfl rfl
    · push_cast
      ring
    · dsimp only
      unfold cooldownTick
      split <;> omega

theorem runC4_steps : ∀ n, (runC4 n).steps = n := by
  intro n
  induction n with
  | zero => rfl
  | succ k ih =>
    have hs : runC4 (k + 1) = (stepV0 (runC4 k) (actC4 k)).state := rfl
    rw [hs, stepV0_state_steps, ih]

theorem runC4_x_le (n : ℕ) (h : n ≤ 999) : (runC4 n).x ≤ 487/25 := by
  by_cases h1 : n ≤ 763
  · rw [idlePhaseC4 n h1]
    norm_num [idleAtV0]
  · by_cases h2 : n ≤ 868
    · obtain ⟨k, rfl⟩ : ∃ k, n = 763 + k := ⟨n - 763, by omega⟩
      rw [walkPhaseC4 k (by omega) (by omega)]
      have hk : (k : ℚ) ≤ 105 := by exact_mod_cast (by omega : k ≤ 105)
      dsimp only
      linarith
    · by_cases h3 : n ≤ 908
      · have h4 : 869 ≤ n := by omega
        interval_cases n <;>
          simp only [arcC4_869, arcC4_870, arcC4_871, arcC4_872, arcC4_873, arcC4_874, arcC4_875, arcC4_876, arcC4_877, arcC4_878, arcC4_879, arcC4_880, arcC4_881, arcC4_882, arcC4_883, arcC4_884, arcC4_885, arcC4_886, arcC4_887, arcC4_888, arcC4_889, arcC4_890, arcC4_891, arcC4_892, arcC4_893, arcC4_894, arcC4_895, arcC4_896, arcC4_897, arcC4_898, arcC4_899, arcC4_900, arcC4_901, arcC4_902, arcC4_903, arcC4_904, arcC4_905, arcC4_906, arcC4_907, arcC4_908] <;> norm_num
      · obtain ⟨k, rfl⟩ : ∃ k, n = 908 + k := ⟨n - 908, by omega⟩
        rw [walk2PhaseC4 k (by omega)]
        have hk : (k : ℚ) ≤ 91 := by exact_mod_cast (by omega : k ≤ 91)
        dsimp only
        linarith

theorem stepV1_truncated (s : StateV1) (a : ℤ × ℤ) :
    (stepV1 s a).truncated = decide (1000 ≤ s.steps + 1) := rfl

/-- C4 counterexample: the explicit `actC4` episode from reset (idle, walk to
the wall, one jump through the bug gap, walk to the flag) reaches no terminal
flag in its first 999 steps, and its 1000th step returns `terminated = true`
and `truncated = true` simultaneously: the flag region is entered exactly
when the step counter reaches `max_steps`. -/
theorem C4_counterexample :
    (∀ n, n < 999 → (stepV0 (runC4 n) (actC4 n)).terminated = false ∧
      (stepV0 (runC4 n) (actC4 n)).truncated = false) ∧
    (stepV0 (runC4 999) (actC4 999)).terminated = true ∧
    (stepV0 (runC4 999) (actC4 999)).truncated = true := by
  refine ⟨?_, ?_, ?_⟩
  · intro n hn
    constructor
    · rw [stepV0_terminated,
        show (stepV0 (runC4 n) (actC4 n)).state = runC4 (n + 1) from rfl]
      have hx := runC4_x_le (n + 1) (by omega)
      have hfar : ¬ (rabs ((runC4 (n + 1)).x - 20) < 1/2) := by
        rw [rabs, if_pos (by linarith)]
        push_neg
        linarith
      cases hrf : reachedFlag (runC4 (n + 1)).x (runC4 (n + 1)).y
      · rfl
      · simp only [reachedFlag, Bool.and_eq_true, decide_eq_true_eq] at hrf
        exact absurd hrf.1 hfar
    · rw [stepV0_truncated, runC4_steps]
      simp only [decide_eq_false_iff_not]
      omega
  · rw [stepV0_terminated,
      show (stepV0 (runC4 999) (actC4 999)).state = runC4 1000 from rfl,
      show (1000 : ℕ) = 908 + 92 from rfl, walk2PhaseC4 92 (by norm_num)]
    norm_num [reachedFlag, rabs]
  · rw [stepV0_truncated, runC4_steps]
    norm_num

/-- C4 (amended): the two flags are computed independently, so they are
mutually exclusive only before the step limit: every step that ends with
`step_count < max_steps` has `truncated = false` (hence at most `terminated`
set), in both presets; a step that reaches the flag exactly when the counter
hits `max_steps` reports both flags at once. -/
theorem C4_flags_exclusive_before_limit :
    (∀ (s : StateV0) (a : ℤ × ℤ), s.steps + 1 < 1000 →
      ¬((stepV0 s a).terminated = true ∧ (stepV0 s a).truncated = true)) ∧
    (∀ (s : StateV1) (a : ℤ × ℤ), s.steps + 1 < 1000 →
      ¬((stepV1 s a).terminated = true ∧ (stepV1 s a).truncated = true)) := by
  constructor
  · rintro s a h ⟨_, ht⟩
    rw [stepV0_truncated] at ht
    simp only [decide_eq_true_eq] at ht
    omega
  · rintro s a h ⟨_, ht⟩
    rw [stepV1_truncated] at ht
    simp only [decide_eq_true_eq] at ht
    omega

/-- Witness for the amended C4 on the first step of a fresh episode in each
preset. -/
theorem C4_flags_exclusive_before_limit_witness :
    ¬((stepV0 (resetV0 none) (0, 0)).terminated = true ∧
      (stepV0 (resetV0 none) (0, 0)).truncated = true) ∧
    ¬((stepV1 (resetV1 none) (0, 0)).terminated = true ∧
      (stepV1 (resetV1 none) (0, 0)).truncated = true) :=
  ⟨C4_flags_exclusive_before_limit.1 (resetV0 none) (0, 0)
      (by norm_num [resetV0, resetStateV0, initV0]),
   C4_flags_exclusive_before_limit.2 (resetV1 none) (0, 0)
      (by norm_num [resetV1, resetStateV1, initV1])⟩
